import Mathlib

/-!
Verification development for `apt_update_v2.py`, a configuration-driven
deployment sequencer that synchronizes Zabbix templates, external scripts
and Grafana dashboards from git repositories into live monitoring
infrastructure.

The script is embedded shallowly:
* Python strings are modelled as `PyStr := List Char`; the string
  primitives the script uses (`split`, `strip`, `lower`, `endswith`,
  `startswith`, `in`, `os.path.join`, `os.path.basename`) are defined
  below as executable functions.
* JSON values are an inductive `Json`; `dict`/`list`/`str` membership of
  Python's polymorphic `in` operator is modelled by `pyIn`.
* Every externally visible action of the script (HTTP requests, shell
  commands, log lines, `sys.exit`) is an `Event`; each function of the
  script is translated to a function returning the list of events it
  emits together with a `Halt` describing how control left it
  (normal return, `sys.exit(n)`, or an uncaught Python exception).
* External inputs (HTTP responses, directory listings, command exit
  statuses) are parameters, gathered in `RunInput` for the whole run.
* Per CPython, a process that dies of an uncaught exception has exit
  status 1; `exitStatusOf` records that convention.
The run model `mainRun` describes the behaviour of `main` under a bound
`logger`; the module-level name-binding of the script (where `logger` is
in fact never bound) is modelled separately by `moduleBindings` /
`mainStmts` / `firstCrash`.
-/

/-- Python strings as lists of characters. -/
abbrev PyStr := List Char

/-- Lift a Lean string literal to a `PyStr`. -/
def pys (s : String) : PyStr := s.toList

/-- Characters removed by Python's `str.strip()`. -/
def isPySpace (c : Char) : Bool :=
  c = ' ' || c = '\t' || c = '\n' || c = '\r' || c = '\x0b' || c = '\x0c'

/-- Python `str.strip()`: drop whitespace from both ends. -/
def pyStrip (s : PyStr) : PyStr :=
  ((s.dropWhile isPySpace).reverse.dropWhile isPySpace).reverse

/-- Python `s.split(c)` for a one-character separator: the list of chunks
between occurrences of `c` (never empty; `"".split(c) = [""]`). -/
def pySplitCh (c : Char) : PyStr → List PyStr
  | [] => [[]]
  | x :: xs =>
    match pySplitCh c xs with
    | [] => [[]]
    | h :: t => if x = c then [] :: h :: t else (x :: h) :: t

/-- The part of `s` after the last occurrence of `c` (all of `s` when `c`
does not occur).  Spec-side companion of `(pySplitCh c s).getLastD []`. -/
def suffixAfterLast (c : Char) : PyStr → PyStr
  | [] => []
  | x :: xs =>
    if xs.contains c then suffixAfterLast c xs
    else if x = c then xs else x :: suffixAfterLast c xs

/-- Python `str.lower()` on the ASCII fragment (the script only lowers
file names and extensions). -/
def pyLower (s : PyStr) : PyStr := s.map Char.toLower

/-- Python `s.endswith(w)`. -/
def pyEndswith (s w : PyStr) : Bool := w.isSuffixOf s

/-- Python `s.startswith(w)`. -/
def pyStartswith (s w : PyStr) : Bool := w.isPrefixOf s

/-- Python substring test `needle in hay` on strings. -/
def strContains (hay needle : PyStr) : Bool :=
  hay.tails.any (fun t => needle.isPrefixOf t)

/-- `os.path.join a b` (for a non-empty `a` without trailing slash). -/
def pyJoin (a b : PyStr) : PyStr := a ++ '/' :: b

/-- `os.path.basename p`: the part after the last `/`. -/
def pyBasename (p : PyStr) : PyStr := suffixAfterLast '/' p

/-- `CATEGORIES = [cat.strip() for cat in CONFIG.get("category", "").split(",") if cat.strip()]` -/
def parseCategories (s : PyStr) : List PyStr :=
  ((pySplitCh ',' s).map pyStrip).filter (fun c => c ≠ [])

/-- main's template-file filter:
`f.lower().endswith(('.xml', '.json', '.yaml', '.yml'))`. -/
def tplFilter (f : PyStr) : Bool :=
  pyEndswith (pyLower f) (pys ".xml") || pyEndswith (pyLower f) (pys ".json") ||
  pyEndswith (pyLower f) (pys ".yaml") || pyEndswith (pyLower f) (pys ".yml")

/-- `template_path.split('.')[-1].lower()` from `import_zabbix_template`. -/
def extOf (path : PyStr) : PyStr := pyLower ((pySplitCh '.' path).getLastD [])

mutual

/-- JSON values (response bodies).  Arrays and objects are given by the
companion mutual types so that decidable equality can be derived. -/
inductive Json where
  | null : Json
  | bool : Bool → Json
  | num : Int → Json
  | str : String → Json
  | arr : JsonList → Json
  | obj : JsonObj → Json
deriving DecidableEq

/-- A JSON array body. -/
inductive JsonList where
  | nil : JsonList
  | cons : Json → JsonList → JsonList
deriving DecidableEq

/-- A JSON object body: a sequence of key/value pairs. -/
inductive JsonObj where
  | nil : JsonObj
  | cons : String → Json → JsonObj → JsonObj
deriving DecidableEq

end

/-- First value bound to key `k` (Python dict lookup on well-formed dicts). -/
def JsonObj.lookup : JsonObj → String → Option Json
  | JsonObj.nil, _ => none
  | JsonObj.cons k v t, key => if k = key then some v else t.lookup key

/-- Key lookup on an object; `none` on non-objects and missing keys. -/
def Json.getKey : Json → String → Option Json
  | Json.obj fs, k => fs.lookup k
  | _, _ => none

/-- Does a JSON value, viewed as a Python dict, carry key `k`?
Non-objects have no keys. -/
def Json.hasKey (j : Json) (k : String) : Bool := (j.getKey k).isSome

/-- Is some element of the array equal to `j`? -/
def JsonList.anyEq : JsonList → Json → Bool
  | JsonList.nil, _ => false
  | JsonList.cons x t, j => x == j || t.anyEq j

/-- Python's polymorphic `k in j` for a string `k`: key membership on
dicts, element membership on lists, substring test on strings, and a
`TypeError` (modelled as `Except.error`) on the remaining types. -/
def pyIn (k : String) : Json → Except Unit Bool
  | Json.obj fs => Except.ok (fs.lookup k).isSome
  | Json.arr xs => Except.ok (xs.anyEq (Json.str k))
  | Json.str s => Except.ok (strContains (pys s) (pys k))
  | _ => Except.error ()

/-- Externally visible actions of the script. -/
inductive Event where
  | mkdtemp : Event
  | logInfo : String → PyStr → Event
  | logWarning : String → PyStr → Event
  | logError : String → PyStr → Event
  | fetchRepo : PyStr → PyStr → Event
  | loginRequest : Event
  | sysExit : Nat → Event
  | importRequest : PyStr → PyStr → List (String × Bool × Bool) → Event
  | copyCmd : PyStr → PyStr → Event
  | chmodCmd : PyStr → Event
  | dashboardUpload : PyStr → Event
  | venvCreate : Event
  | pipUpgrade : Event
  | pipInstallReq : Event
  | pluginInstall : PyStr → Event
  | restartGrafana : Event
  | dsListRequest : Event
  | dsCreateRequest : Event
deriving DecidableEq

/-- How control left a piece of the script. -/
inductive Halt where
  | ok : Halt
  | exited : Nat → Halt
  | raisedE : Halt
deriving DecidableEq

/-- The process exit status implied by a `Halt`, when the process stops
there: `sys.exit(n)` yields `n`, and CPython exits with status 1 on an
uncaught exception.  `none` means control continued normally. -/
def exitStatusOf : Halt → Option Nat
  | Halt.ok => none
  | Halt.exited n => some n
  | Halt.raisedE => some 1

/-- The result of running a fragment: emitted events plus a `Halt`. -/
abbrev FnRes := List Event × Halt

/-- Sequential composition: run `b` only when `a` returned normally. -/
def seqF (a b : FnRes) : FnRes :=
  match a with
  | (evs, Halt.ok) => (evs ++ b.1, b.2)
  | (evs, h) => (evs, h)

/-- Event classifiers used to phrase the claims. -/
def isImportEvent : Event → Bool
  | Event.importRequest _ _ _ => true
  | _ => false

def isCopyEvent : Event → Bool
  | Event.copyCmd _ _ => true
  | Event.chmodCmd _ => true
  | _ => false

def isUploadEvent : Event → Bool
  | Event.dashboardUpload _ => true
  | _ => false

def isAssetEvent (e : Event) : Bool :=
  isImportEvent e || isCopyEvent e || isUploadEvent e

def isWarningEvent : Event → Bool
  | Event.logWarning _ _ => true
  | _ => false

def isDsListEvent : Event → Bool
  | Event.dsListRequest => true
  | _ => false

def isDsCreateEvent : Event → Bool
  | Event.dsCreateRequest => true
  | _ => false

def isVenvEvent : Event → Bool
  | Event.venvCreate => true
  | Event.pipUpgrade => true
  | Event.pipInstallReq => true
  | _ => false

def isPluginInstallEvent : Event → Bool
  | Event.pluginInstall _ => true
  | _ => false

/-- The asset events of a trace, in order. -/
def assetEvents (t : List Event) : List Event := t.filter isAssetEvent

/-- `zabbix_login` (lines 49-66): posts `user.login`, parses the body and
checks `'result' in result`.  Input: the parse result of `res.json()`
(`none` when the body is not valid JSON, in which case `res.json()`
raises and nothing catches it).  On a dict carrying `result` the token is
returned; on `in` evaluating false the failure is logged and
`sys.exit(1)` runs; `in` on a non-container raises `TypeError`, and
`result['result']` on a list/str that contains `"result"` also raises. -/
def zabbix_login (body : Option Json) : FnRes :=
  match body with
  | none => ([Event.loginRequest], Halt.raisedE)
  | some j =>
    match pyIn "result" j with
    | Except.error _ => ([Event.loginRequest], Halt.raisedE)
    | Except.ok false =>
      ([Event.loginRequest, Event.logError "zabbix_login_failed" [],
        Event.sysExit 1], Halt.exited 1)
    | Except.ok true =>
      match j with
      | Json.obj _ =>
        ([Event.loginRequest, Event.logInfo "zabbix_login_ok" []], Halt.ok)
      | _ => ([Event.loginRequest], Halt.raisedE)

/-- `format_map = {"xml": "xml", "json": "json", "yaml": "yaml", "yml": "yaml"}` -/
def format_map : List (PyStr × PyStr) :=
  [(pys "xml", pys "xml"), (pys "json", pys "json"),
   (pys "yaml", pys "yaml"), (pys "yml", pys "yaml")]

/-- The `rules` object of the `configuration.import` payload
(lines 85-93): per object type, `(createMissing, updateExisting)`. -/
def importRules : List (String × Bool × Bool) :=
  [("templates", true, true), ("items", true, true), ("triggers", true, true),
   ("discoveryRules", true, true), ("graphs", true, true),
   ("valueMaps", true, true), ("httptests", true, true)]

/-- Handling of the import response json `j` after a successful parse
(lines 106-110): `"error" in response_json` (polymorphic `in`), then
`response_json['error']['data']` inside the log call — an `error` value
that is not a dict with a `data` key raises (`KeyError`/`TypeError`),
and the surrounding `try` only catches `ValueError`. -/
def importRespHandle (path : PyStr) (j : Json) : FnRes :=
  match pyIn "error" j with
  | Except.error _ => ([], Halt.raisedE)
  | Except.ok false => ([Event.logInfo "import_ok" path], Halt.ok)
  | Except.ok true =>
    match (j.getKey "error").bind (fun e => e.getKey "data") with
    | some _ => ([Event.logError "import_failed" path], Halt.ok)
    | none => ([], Halt.raisedE)

/-- `import_zabbix_template` (lines 69-112).  The file content that is
read into the request's `source` field, and the bearer token of the
`Authorization` header, do not influence control flow and are elided
from the `importRequest` event.  `resp` is the parse result of
`res.json()` (`none` = `ValueError`, which the `try` catches). -/
def import_zabbix_template (path : PyStr) (resp : Option Json) : FnRes :=
  match format_map.lookup (extOf path) with
  | none => ([Event.logWarning "unsupported_template_format" path], Halt.ok)
  | some fmt =>
    let req := [Event.importRequest path fmt importRules]
    match resp with
    | none => (req ++ [Event.logError "invalid_import_response" path], Halt.ok)
    | some j =>
      let (evs, h) := importRespHandle path j
      (req ++ evs, h)

/-- `copy_external_script` (lines 115-120): shell `cp` to
`externalscript_path/basename`, then `chmod +x` when the destination
name ends in `.sh` or `.py`.  The `os.system` results are unchecked. -/
def copy_external_script (externalscriptPath src : PyStr) : FnRes :=
  let dst := pyJoin externalscriptPath (pyBasename src)
  if pyEndswith dst (pys ".sh") || pyEndswith dst (pys ".py") then
    ([Event.copyCmd src dst, Event.chmodCmd dst,
      Event.logInfo "script_copied" dst], Halt.ok)
  else
    ([Event.copyCmd src dst], Halt.ok)

/-- `upload_grafana_dashboard` (lines 123-132): posts the parsed file
with `overwrite: true` and logs the status code, never failing on it.
(The dashboard body and status are elided: neither affects control
flow.  A file that is not valid JSON would raise in `json.load`; the
claims do not touch that path and it is not modelled.) -/
def upload_grafana_dashboard (path : PyStr) : FnRes :=
  ([Event.dashboardUpload path, Event.logInfo "upload_status" path], Halt.ok)

/-- Scan of `for ds in res.json(): if ds.get("type") == "alexanderzobnin-zabbix-datasource"`. -/
inductive DsScan where
  | found : DsScan
  | notFound : DsScan
  | raisedIter : DsScan
deriving DecidableEq

/-- The datasource type string of `add_zabbix_datasource`. -/
def zabbixDsType : String := "alexanderzobnin-zabbix-datasource"

/-- Iterating the array: `ds.get` on a non-dict element raises
`AttributeError`/`TypeError`. -/
def scanList : JsonList → DsScan
  | JsonList.nil => DsScan.notFound
  | JsonList.cons (Json.obj fs) rest =>
    if fs.lookup "type" == some (Json.str zabbixDsType) then DsScan.found
    else scanList rest
  | JsonList.cons _ _ => DsScan.raisedIter

/-- `for ds in res.json()`: lists iterate their elements; dicts iterate
their keys (strings, whose `.get` raises unless the dict is empty);
strings iterate their characters likewise; other values raise
`TypeError` at the `for` itself. -/
def scanDs : Json → DsScan
  | Json.arr xs => scanList xs
  | Json.obj JsonObj.nil => DsScan.notFound
  | Json.obj (JsonObj.cons _ _ _) => DsScan.raisedIter
  | Json.str s => if s = "" then DsScan.notFound else DsScan.raisedIter
  | _ => DsScan.raisedIter

/-- `add_zabbix_datasource` (lines 176-218).  `dsGet` is the outcome of
`requests.get(.../api/datasources)`: `none` when the request itself
raises, otherwise the status code and the parse result of `res.json()`
(`none` = parse error, which raises — there is no `try` here).
`createStatus` is the status of the `POST` that creates the source. -/
def add_zabbix_datasource : Option (Nat × Option Json) → Nat → FnRes
  | none, _ =>
    ([Event.logInfo "ensure_zabbix_ds" [], Event.dsListRequest],
     Halt.raisedE)
  | some (status, body), createStatus =>
    if status ≠ 200 then
      ([Event.logInfo "ensure_zabbix_ds" [], Event.dsListRequest,
        Event.logWarning "ds_list_failed" []], Halt.ok)
    else
      match body with
      | none =>
        ([Event.logInfo "ensure_zabbix_ds" [], Event.dsListRequest],
         Halt.raisedE)
      | some j =>
        match scanDs j with
        | DsScan.raisedIter =>
          ([Event.logInfo "ensure_zabbix_ds" [], Event.dsListRequest],
           Halt.raisedE)
        | DsScan.found =>
          ([Event.logInfo "ensure_zabbix_ds" [], Event.dsListRequest,
            Event.logInfo "ds_exists" []], Halt.ok)
        | DsScan.notFound =>
          if createStatus = 200 then
            ([Event.logInfo "ensure_zabbix_ds" [], Event.dsListRequest,
              Event.dsCreateRequest, Event.logInfo "ds_added" []], Halt.ok)
          else
            ([Event.logInfo "ensure_zabbix_ds" [], Event.dsListRequest,
              Event.dsCreateRequest, Event.logWarning "ds_add_failed" []],
             Halt.ok)

/-- The plugin-line filter and strip of `install_grafana_plugins`
(line 149): `[line.strip() for line in f if line.strip() and not
line.startswith("#")]`.  Note the `startswith` test is on the raw line.
-/
def pluginLinesOf (lines : List PyStr) : List PyStr :=
  (lines.filter (fun l => pyStrip l ≠ [] && !(pyStartswith l (pys "#")))).map pyStrip

/-- Events of one `grafana-cli plugins install` iteration (lines 154-161). -/
def pluginInstallEvents (installOk : PyStr → Bool) (p : PyStr) : List Event :=
  [Event.logInfo "installing_plugin" p, Event.pluginInstall p] ++
    (if installOk p then [Event.logInfo "plugin_installed" p]
     else [Event.logWarning "plugin_install_failed" p])

/-- `install_grafana_plugins` (lines 143-172).  `fileLines` is `none`
when the plugin file does not exist (early return with a warning —
note the datasource step is then skipped too), otherwise the lines of
the file.  `installOk p` tells whether `grafana-cli plugins install p`
exited 0.  The trailing `add_zabbix_datasource()` call sits in a
`try/except Exception` (lines 169-172), so its fault is caught and
logged and the function still returns normally. -/
def install_grafana_plugins (fileLines : Option (List PyStr))
    (installOk : PyStr → Bool) (dsGet : Option (Nat × Option Json))
    (dsCreateStatus : Nat) : FnRes :=
  match fileLines with
  | none => ([Event.logWarning "plugin_file_missing" []], Halt.ok)
  | some lines =>
    let plugins := pluginLinesOf lines
    let instEvs := plugins.flatMap (pluginInstallEvents installOk)
    let restartEvs :=
      if plugins.any installOk then
        [Event.restartGrafana, Event.logInfo "grafana_restarted" []]
      else []
    let ds := add_zabbix_datasource dsGet dsCreateStatus
    let dsEvs :=
      match ds.2 with
      | Halt.ok => ds.1
      | _ => ds.1 ++ [Event.logError "ds_exception_caught" []]
    (instEvs ++ restartEvs ++ dsEvs, Halt.ok)

/-- `setup_virtualenv` (lines 239-248): create the venv when absent,
upgrade pip, install the requirements file when present.  The
`subprocess.run(check=True)` faults are not modelled; the claims do not
exercise them. -/
def setup_virtualenv (venvDirExists reqFileExists : Bool) : FnRes :=
  ((if venvDirExists then [] else [Event.venvCreate]) ++
   [Event.pipUpgrade] ++
   (if reqFileExists then [Event.pipInstallReq] else []), Halt.ok)

/-- External world of one invocation of `main` (lines 251-297): the
configuration values it reads, the directory listings it encounters and
the responses of the external services.  Directory-listing functions are
keyed by category name (the subdirectory `join(dir, cat)` is in
bijection with `cat`); `none` means `os.path.exists` is false. -/
structure RunInput where
  categoryStr : PyStr
  tempDir : PyStr
  repoTpl : PyStr
  repoScr : PyStr
  repoDash : PyStr
  externalscriptPath : PyStr
  venvRequired : Bool
  venvDirExists : Bool
  reqFileExists : Bool
  loginBody : Option Json
  zbxTplFiles : PyStr → Option (List PyStr)
  zbxScrEntries : PyStr → Option (List (PyStr × Bool))
  grafFiles : PyStr → Option (List PyStr)
  importResp : PyStr → Option Json
  pluginLines : Option (List PyStr)
  installOk : PyStr → Bool
  dsGet : Option (Nat × Option Json)
  dsCreateStatus : Nat
  dsGet2 : Option (Nat × Option Json)
  dsCreateStatus2 : Nat

/-- `zbx_tpl_dir`, `zbx_scr_dir`, `graf_dir` under the temp directory. -/
def tplDir (inp : RunInput) : PyStr := pyJoin inp.tempDir (pys "zbx_tpl")

def scrDir (inp : RunInput) : PyStr := pyJoin inp.tempDir (pys "zbx_scr")

def dashDir (inp : RunInput) : PyStr := pyJoin inp.tempDir (pys "graf_dash")

/-- Full path of a template file of category `cat`. -/
def tplPath (inp : RunInput) (cat f : PyStr) : PyStr :=
  pyJoin (pyJoin (tplDir inp) cat) f

/-- The template inner loop (lines 269-271): each listed name passing
the extension filter is fed to `import_zabbix_template`; an uncaught
fault of one call aborts everything after it. -/
def runTplFiles (inp : RunInput) (cat : PyStr) : List PyStr → FnRes
  | [] => ([], Halt.ok)
  | f :: fs =>
    if tplFilter f then
      seqF (import_zabbix_template (tplPath inp cat f)
              (inp.importResp (tplPath inp cat f)))
        (runTplFiles inp cat fs)
    else runTplFiles inp cat fs

/-- Template phase of one category (lines 268-271). -/
def tplPhase (inp : RunInput) (cat : PyStr) : FnRes :=
  match inp.zbxTplFiles cat with
  | none => ([], Halt.ok)
  | some fs => runTplFiles inp cat fs

/-- Script phase of one category (lines 274-278): every listed entry
that is a regular file is copied. -/
def scrPhase (inp : RunInput) (cat : PyStr) : FnRes :=
  match inp.zbxScrEntries cat with
  | none => ([], Halt.ok)
  | some entries =>
    ((entries.filter (fun e => e.2)).flatMap
      (fun e =>
        (copy_external_script inp.externalscriptPath
          (pyJoin (pyJoin (scrDir inp) cat) e.1)).1), Halt.ok)

/-- Dashboard phase of one category (lines 281-284): files ending in
`.json` (case-sensitive here) are uploaded. -/
def dashPhase (inp : RunInput) (cat : PyStr) : FnRes :=
  match inp.grafFiles cat with
  | none => ([], Halt.ok)
  | some fs =>
    ((fs.filter (fun f => pyEndswith f (pys ".json"))).flatMap
      (fun f =>
        (upload_grafana_dashboard (pyJoin (pyJoin (dashDir inp) cat) f)).1),
     Halt.ok)

/-- One iteration of the category loop (lines 261-284). -/
def catPhase (inp : RunInput) (cat : PyStr) : FnRes :=
  seqF ([Event.logInfo "processing_category" cat,
         Event.logInfo "importing_templates" cat], Halt.ok)
    (seqF (tplPhase inp cat)
      (seqF ([Event.logInfo "copying_scripts" cat], Halt.ok)
        (seqF (scrPhase inp cat)
          (seqF ([Event.logInfo "uploading_dashboards" cat], Halt.ok)
            (dashPhase inp cat)))))

/-- The category loop over the parsed configuration list. -/
def catLoop (inp : RunInput) : List PyStr → FnRes
  | [] => ([], Halt.ok)
  | c :: cs => seqF (catPhase inp c) (catLoop inp cs)

/-- The fixed prefix of `main` (lines 252-258): temp dir, the three
`clone_or_pull` fetches, and the login banner. -/
def mainPre (inp : RunInput) : List Event :=
  [Event.mkdtemp, Event.logInfo "cloning_repos" [],
   Event.fetchRepo inp.repoTpl (tplDir inp),
   Event.fetchRepo inp.repoScr (scrDir inp),
   Event.fetchRepo inp.repoDash (dashDir inp),
   Event.logInfo "zabbix_login_banner" []]

/-- Everything after the category loop, in source order (lines 286-295):
the optional virtualenv step FIRST, then `install_grafana_plugins`
(which internally attempts the datasource step), then one more direct —
and unguarded — `add_zabbix_datasource()` call. -/
def afterCats (inp : RunInput) : FnRes :=
  seqF (if inp.venvRequired
        then seqF ([Event.logInfo "venv_banner" []], Halt.ok)
               (setup_virtualenv inp.venvDirExists inp.reqFileExists)
        else ([], Halt.ok))
    (seqF (install_grafana_plugins inp.pluginLines inp.installOk
             inp.dsGet inp.dsCreateStatus)
      (add_zabbix_datasource inp.dsGet2 inp.dsCreateStatus2))

/-- `main` (lines 251-297), under a bound logger. -/
def mainRun (inp : RunInput) : FnRes :=
  seqF (mainPre inp, Halt.ok)
    (seqF (zabbix_login inp.loginBody)
      (seqF (catLoop inp (parseCategories inp.categoryStr))
        (seqF (afterCats inp)
          ([Event.logInfo "finished" []], Halt.ok))))

/-- Kind of a top-level statement of `main`, for the name-binding model. -/
inductive PyAction where
  | mkdtempCall : PyAction
  | logCall : PyAction
  | fetchCall : PyAction
  | loginCall : PyAction
  | importCall : PyAction
  | copyCall : PyAction
  | uploadCall : PyAction
  | venvCall : PyAction
  | pluginCall : PyAction
  | dsCall : PyAction
deriving DecidableEq

/-- A statement together with the global names it reads. -/
structure PyStmt where
  refs : List String
  action : PyAction
deriving DecidableEq

/-- The names bound at module level on the active code path of
`apt_update_v2.py`: the imports (lines 3-12), the class and function
definitions, and the module-level assignments (lines 15-18, 42-46).
`setup_logging` is defined but never called outside comments, and no
active statement ever assigns a global `logger`. -/
def moduleBindings : List String :=
  ["os", "sys", "json", "tempfile", "requests", "zipfile", "logging",
   "Repo", "datetime", "RotatingFileHandler",
   "LOG_DIR", "LOG_FILE", "MAX_LOG_SIZE", "BACKUP_COUNT",
   "ZippingRotatingFileHandler", "setup_logging", "zabbix_login",
   "import_zabbix_template", "copy_external_script",
   "upload_grafana_dashboard", "clone_or_pull", "install_grafana_plugins",
   "add_zabbix_datasource", "setup_virtualenv", "main",
   "config_path", "CONFIG", "CATEGORIES"]

/-- The statements of `main` (lines 252-297) with the global names each
one reads (locals such as `temp_dir` or `auth_token` are omitted; `main`
assigns no global).  The category loop body is flattened into its
statements; for the binding analysis only their referenced globals
matter. -/
def mainStmts : List PyStmt :=
  [⟨["tempfile"], PyAction.mkdtempCall⟩,
   ⟨["logger"], PyAction.logCall⟩,
   ⟨["clone_or_pull", "CONFIG", "os"], PyAction.fetchCall⟩,
   ⟨["clone_or_pull", "CONFIG", "os"], PyAction.fetchCall⟩,
   ⟨["clone_or_pull", "CONFIG", "os"], PyAction.fetchCall⟩,
   ⟨["logger"], PyAction.logCall⟩,
   ⟨["zabbix_login"], PyAction.loginCall⟩,
   ⟨["CATEGORIES", "logger", "os"], PyAction.logCall⟩,
   ⟨["os", "import_zabbix_template", "logger"], PyAction.importCall⟩,
   ⟨["os", "copy_external_script", "logger"], PyAction.copyCall⟩,
   ⟨["os", "upload_grafana_dashboard", "logger"], PyAction.uploadCall⟩,
   ⟨["CONFIG", "logger", "setup_virtualenv"], PyAction.venvCall⟩,
   ⟨["os", "install_grafana_plugins"], PyAction.pluginCall⟩,
   ⟨["add_zabbix_datasource"], PyAction.dsCall⟩,
   ⟨["logger"], PyAction.logCall⟩]

/-- Index of the first statement referencing a name that is not bound:
there `NameError` is raised.  Statements before it run normally (no
statement of `main` assigns a global, so the bound set is constant). -/
def firstCrash (bound : List String) (stmts : List PyStmt) : Option Nat :=
  stmts.findIdx? (fun st => st.refs.any (fun n => !(bound.contains n)))

/-! ### String lemmas: the extension seen by `import_zabbix_template`
on a path whose file name passes main's suffix filter. -/

theorem pySplitCh_ne_nil (c : Char) (s : PyStr) : pySplitCh c s ≠ [] := by
  cases s with
  | nil => simp [pySplitCh]
  | cons x xs =>
    unfold pySplitCh
    cases pySplitCh c xs with
    | nil => simp
    | cons h t =>
      by_cases hx : x = c <;> simp [hx]

theorem pySplitCh_of_not_contains {c : Char} {s : PyStr}
    (h : s.contains c = false) : pySplitCh c s = [s] := by
  induction s with
  | nil => rfl
  | cons x xs ih =>
    simp only [List.contains_cons, Bool.or_eq_false_iff, beq_eq_false_iff_ne] at h
    have hxs : xs.contains c = false := h.2
    unfold pySplitCh
    rw [ih hxs]
    have hx : ¬ x = c := fun he => h.1 (by simp [he])
    simp [hx]

theorem two_le_length_pySplitCh {c : Char} {s : PyStr}
    (h : s.contains c = true) : 2 ≤ (pySplitCh c s).length := by
  induction s with
  | nil => simp at h
  | cons x xs ih =>
    unfold pySplitCh
    cases hsp : pySplitCh c xs with
    | nil => exact absurd hsp (pySplitCh_ne_nil c xs)
    | cons hh tt =>
      by_cases hx : x = c
      · simp [hx]
      · have hxs : xs.contains c = true := by
          simp only [List.contains_cons, Bool.or_eq_true, beq_iff_eq] at h
          rcases h with h1 | h1
          · exact absurd h1.symm hx
          · simpa using h1
        have := ih hxs
        rw [hsp] at this
        simp only [List.length_cons] at this ⊢
        simp [hx]
        omega

theorem suffixAfterLast_of_not_contains {c : Char} {s : PyStr}
    (h : s.contains c = false) : suffixAfterLast c s = s := by
  induction s with
  | nil => rfl
  | cons x xs ih =>
    simp only [List.contains_cons, Bool.or_eq_false_iff, beq_eq_false_iff_ne] at h
    have hxs : xs.contains c = false := h.2
    have hx : ¬ x = c := fun he => h.1 (by simp [he])
    unfold suffixAfterLast
    rw [hxs]
    simp [hx, ih hxs]

theorem getLastD_pySplitCh (c : Char) (s : PyStr) :
    (pySplitCh c s).getLastD [] = suffixAfterLast c s := by
  induction s with
  | nil => rfl
  | cons x xs ih =>
    unfold pySplitCh suffixAfterLast
    cases hcc : xs.contains c with
    | false =>
      rw [pySplitCh_of_not_contains hcc]
      by_cases hx : x = c <;>
        simp [hx, suffixAfterLast_of_not_contains hcc]
    | true =>
      have h2 := two_le_length_pySplitCh hcc
      cases hsp : pySplitCh c xs with
      | nil => exact absurd hsp (pySplitCh_ne_nil c xs)
      | cons hh tt =>
        rw [hsp] at ih h2
        cases tt with
        | nil => simp at h2
        | cons y t2 =>
          by_cases hx : x = c <;>
            simpa [hx, List.getLastD_cons] using ih

theorem suffixAfterLast_append_of_contains {c : Char} {r : PyStr}
    (l : PyStr) (h : r.contains c = true) :
    suffixAfterLast c (l ++ r) = suffixAfterLast c r := by
  induction l with
  | nil => rfl
  | cons x l2 ih =>
    have hlr : (l2 ++ r).contains c = true := by
      have : c ∈ l2 ++ r := List.mem_append_right _ (by simpa using h)
      simpa using this
    show suffixAfterLast c (x :: (l2 ++ r)) = _
    conv_lhs => rw [suffixAfterLast]
    rw [hlr]
    simpa using ih

theorem suffixAfterLast_sandwich {c : Char} {r : PyStr}
    (l : PyStr) (h : r.contains c = false) :
    suffixAfterLast c (l ++ c :: r) = r := by
  have hcr : (c :: r).contains c = true := by simp
  rw [suffixAfterLast_append_of_contains l hcr]
  unfold suffixAfterLast
  rw [h]
  simp

theorem toLower_dot : Char.toLower '.' = '.' := by decide

theorem eq_dot_of_toLower_eq_dot {c : Char} (h : Char.toLower c = '.') :
    c = '.' := by
  unfold Char.toLower at h
  by_cases hc : c.toNat ≥ 65 ∧ c.toNat ≤ 90
  · simp only [if_pos hc] at h
    have hval : (c.toNat + 32).isValidChar := Or.inl (by omega)
    rw [Char.ofNat, dif_pos hval] at h
    have hv : c.toNat + 32 = 46 := congrArg Char.toNat h
    omega
  · simpa [if_neg hc] using h

/-- Core extension lemma: when the lower-cased string ends in `'.' :: e`
with a dot-free `e`, the part after the last dot lowers exactly to `e`. -/
theorem pyLower_suffixAfterLast_of_ends {s e : PyStr}
    (he : e.contains '.' = false)
    (h : pyEndswith (pyLower s) ('.' :: e) = true) :
    pyLower (suffixAfterLast '.' s) = e := by
  have hsuf : ('.' :: e) <:+ pyLower s := by
    rwa [pyEndswith, List.isSuffixOf_iff_suffix] at h
  obtain ⟨u, hu⟩ := hsuf
  obtain ⟨s1, s2, hs, hs1, hs2⟩ := List.map_eq_append_iff.mp hu.symm
  obtain ⟨d, e2, hsd, hd, he2⟩ := List.map_eq_cons_iff.mp hs2
  have hdd : d = '.' := eq_dot_of_toLower_eq_dot hd
  have he2c : e2.contains '.' = false := by
    cases hmem : e2.contains '.' with
    | false => rfl
    | true =>
      have : ('.' : Char) ∈ e2 := by simpa using hmem
      have : Char.toLower '.' ∈ e2.map Char.toLower := List.mem_map_of_mem _ this
      rw [toLower_dot, he2] at this
      simp [this] at he
  rw [hs, hsd, hdd]
  rw [suffixAfterLast_sandwich s1 he2c]
  exact he2

/-- The extension computed by `import_zabbix_template` from the full
path, for a file name whose lower case ends in `'.' :: e`. -/
theorem extOf_pyJoin_of_ends {f e : PyStr} (dir : PyStr)
    (he : e.contains '.' = false)
    (h : pyEndswith (pyLower f) ('.' :: e) = true) :
    extOf (pyJoin dir f) = e := by
  have himg : pyEndswith (pyLower (pyJoin dir f)) ('.' :: e) = true := by
    rw [pyEndswith, List.isSuffixOf_iff_suffix]
    have h1 : ('.' :: e) <:+ pyLower f := by
      rwa [pyEndswith, List.isSuffixOf_iff_suffix] at h
    have h2 : pyLower f <:+ pyLower ('/' :: f) := by
      exact List.suffix_cons _ _
    have h3 : pyLower ('/' :: f) <:+ pyLower (pyJoin dir f) := by
      rw [show pyLower (pyJoin dir f) = pyLower dir ++ pyLower ('/' :: f) by
        simp [pyJoin, pyLower]]
      exact List.suffix_append _ _
    exact (h1.trans h2).trans h3
  rw [extOf, getLastD_pySplitCh]
  exact pyLower_suffixAfterLast_of_ends he himg

theorem not_both_ends {s w1 w2 : PyStr}
    (hno1 : ¬ w1 <:+ w2) (hno2 : ¬ w2 <:+ w1)
    (h1 : pyEndswith s w1 = true) : pyEndswith s w2 = false := by
  cases h2 : pyEndswith s w2 with
  | false => rfl
  | true =>
    rw [pyEndswith, List.isSuffixOf_iff_suffix] at h1 h2
    rcases List.suffix_or_suffix_of_suffix h1 h2 with hor | hor
    exacts [absurd hor hno1, absurd hor hno2]

/-- The format that `import_zabbix_template` selects for a file name
passing main's filter (which of the four suffixes matches). -/
def expectedFmt (f : PyStr) : PyStr :=
  if pyEndswith (pyLower f) (pys ".xml") then pys "xml"
  else if pyEndswith (pyLower f) (pys ".json") then pys "json"
  else pys "yaml"

/-- A file name passing main's suffix filter always lands in
`format_map`: the warning branch of `import_zabbix_template` is
unreachable through `main`'s template loop. -/
theorem format_map_lookup_of_tplFilter (dir f : PyStr)
    (h : tplFilter f = true) :
    format_map.lookup (extOf (pyJoin dir f)) = some (expectedFmt f) := by
  simp only [tplFilter, Bool.or_eq_true] at h
  rcases h with ((hx | hj) | hy) | hm
  · have he : extOf (pyJoin dir f) = pys "xml" := by
      have := extOf_pyJoin_of_ends (f := f) (e := pys "xml") dir (by decide)
        (by simpa using hx)
      simpa using this
    rw [he]
    simp [expectedFmt, hx]
    rfl
  · have hnx : pyEndswith (pyLower f) (pys ".xml") = false :=
      not_both_ends (by decide) (by decide) hj
    have he : extOf (pyJoin dir f) = pys "json" := by
      have := extOf_pyJoin_of_ends (f := f) (e := pys "json") dir (by decide)
        (by simpa using hj)
      simpa using this
    rw [he]
    simp [expectedFmt, hnx, hj]
    rfl
  · have hnx : pyEndswith (pyLower f) (pys ".xml") = false :=
      not_both_ends (by decide) (by decide) hy
    have hnj : pyEndswith (pyLower f) (pys ".json") = false :=
      not_both_ends (by decide) (by decide) hy
    have he : extOf (pyJoin dir f) = pys "yaml" := by
      have := extOf_pyJoin_of_ends (f := f) (e := pys "yaml") dir (by decide)
        (by simpa using hy)
      simpa using this
    rw [he]
    simp [expectedFmt, hnx, hnj]
    rfl
  · have hnx : pyEndswith (pyLower f) (pys ".xml") = false :=
      not_both_ends (by decide) (by decide) hm
    have hnj : pyEndswith (pyLower f) (pys ".json") = false :=
      not_both_ends (by decide) (by decide) hm
    have he : extOf (pyJoin dir f) = pys "yml" := by
      have := extOf_pyJoin_of_ends (f := f) (e := pys "yml") dir (by decide)
        (by simpa using hm)
      simpa using this
    rw [he]
    simp [expectedFmt, hnx, hnj]
    rfl

/-! ### Behaviour lemmas for the importer and the run trace. -/

/-- Does handling the parsed import response raise (uncaught
`TypeError`/`KeyError` around `response_json['error']['data']`)? -/
def importRespRaises (j : Json) : Bool :=
  match pyIn "error" j with
  | Except.error _ => true
  | Except.ok false => false
  | Except.ok true =>
    ((j.getKey "error").bind (fun e => e.getKey "data")).isNone

/-- Does one `import_zabbix_template` call raise, as a function of the
parse result of its response?  (`none` = `ValueError`, caught.) -/
def importRaises (resp : Option Json) : Bool :=
  match resp with
  | none => false
  | some j => importRespRaises j

theorem importRespHandle_halt (p : PyStr) (j : Json) :
    (importRespHandle p j).2 =
      (if importRespRaises j then Halt.raisedE else Halt.ok) := by
  unfold importRespHandle importRespRaises
  rcases hin : pyIn "error" j with he | hb
  · rfl
  · cases hb with
    | false => rfl
    | true =>
      cases hd : (j.getKey "error").bind (fun e => e.getKey "data") with
      | none => rfl
      | some d => rfl

theorem assetEvents_importRespHandle (p : PyStr) (j : Json) :
    assetEvents (importRespHandle p j).1 = [] := by
  unfold importRespHandle
  rcases pyIn "error" j with he | hb
  · rfl
  · cases hb with
    | false => rfl
    | true =>
      cases (j.getKey "error").bind (fun e => e.getKey "data") with
      | none => rfl
      | some d => rfl

/-- On a supported path and a non-raising response, the importer
returns normally and its only asset event is the single
`configuration.import` request. -/
theorem import_zabbix_template_supported {path fmt : PyStr}
    {resp : Option Json}
    (hl : format_map.lookup (extOf path) = some fmt)
    (hnr : importRaises resp = false) :
    (import_zabbix_template path resp).2 = Halt.ok ∧
    assetEvents (import_zabbix_template path resp).1 =
      [Event.importRequest path fmt importRules] := by
  unfold import_zabbix_template
  rw [hl]
  cases resp with
  | none =>
    constructor
    · rfl
    · simp [assetEvents, isAssetEvent, isImportEvent, isCopyEvent,
        isUploadEvent]
  | some j =>
    have hh := importRespHandle_halt path j
    have ha := assetEvents_importRespHandle path j
    have hr : importRespRaises j = false := by simpa [importRaises] using hnr
    rw [hr] at hh
    simp only [Bool.false_eq_true, if_false] at hh
    cases hres : importRespHandle path j with
    | mk E H =>
      rw [hres] at hh ha
      simp only [hres]
      refine ⟨hh, ?_⟩
      unfold assetEvents at ha ⊢
      simp only [List.singleton_append]
      rw [List.filter_cons_of_pos (by rfl), ha]

/-- On a file failing the suffix filter, the importer is never invoked;
on an unsupported extension reached directly, it emits only a warning. -/
theorem import_zabbix_template_unsupported {path : PyStr}
    {resp : Option Json}
    (hl : format_map.lookup (extOf path) = none) :
    import_zabbix_template path resp =
      ([Event.logWarning "unsupported_template_format" path], Halt.ok) := by
  unfold import_zabbix_template
  rw [hl]

theorem seqF_of_ok {a : FnRes} (b : FnRes) (h : a.2 = Halt.ok) :
    seqF a b = (a.1 ++ b.1, b.2) := by
  cases a with
  | mk e ht =>
    simp only [] at h
    subst h
    rfl

theorem assetEvents_append (a b : List Event) :
    assetEvents (a ++ b) = assetEvents a ++ assetEvents b :=
  List.filter_append a b

/-- Expected asset events of one category's template phase. -/
def tplSegment (inp : RunInput) (cat : PyStr) : List Event :=
  match inp.zbxTplFiles cat with
  | none => []
  | some fs =>
    (fs.filter tplFilter).map
      (fun f => Event.importRequest (tplPath inp cat f) (expectedFmt f)
        importRules)

/-- Asset events of one `copy_external_script` call. -/
def copyAssetEvents (esp src : PyStr) : List Event :=
  let dst := pyJoin esp (pyBasename src)
  if pyEndswith dst (pys ".sh") || pyEndswith dst (pys ".py") then
    [Event.copyCmd src dst, Event.chmodCmd dst]
  else [Event.copyCmd src dst]

/-- Expected asset events of one category's script phase. -/
def scrSegment (inp : RunInput) (cat : PyStr) : List Event :=
  match inp.zbxScrEntries cat with
  | none => []
  | some es =>
    (es.filter (fun e => e.2)).flatMap
      (fun e => copyAssetEvents inp.externalscriptPath
        (pyJoin (pyJoin (scrDir inp) cat) e.1))

/-- Expected asset events of one category's dashboard phase. -/
def dashSegment (inp : RunInput) (cat : PyStr) : List Event :=
  match inp.grafFiles cat with
  | none => []
  | some fs =>
    (fs.filter (fun f => pyEndswith f (pys ".json"))).map
      (fun f => Event.dashboardUpload (pyJoin (pyJoin (dashDir inp) cat) f))

/-- No import call of category `cat` raises. -/
def tplNoRaise (inp : RunInput) (cat : PyStr) : Prop :=
  ∀ f ∈ (inp.zbxTplFiles cat).getD [], tplFilter f = true →
    importRaises (inp.importResp (tplPath inp cat f)) = false

instance (inp : RunInput) (cat : PyStr) : Decidable (tplNoRaise inp cat) :=
  inferInstanceAs (Decidable (∀ f ∈ _, _ → _))

theorem runTplFiles_spec (inp : RunInput) (cat : PyStr) (fs : List PyStr)
    (h : ∀ f ∈ fs, tplFilter f = true →
      importRaises (inp.importResp (tplPath inp cat f)) = false) :
    (runTplFiles inp cat fs).2 = Halt.ok ∧
    assetEvents (runTplFiles inp cat fs).1 =
      (fs.filter tplFilter).map
        (fun f => Event.importRequest (tplPath inp cat f) (expectedFmt f)
          importRules) := by
  induction fs with
  | nil => exact ⟨rfl, rfl⟩
  | cons f fs ih =>
    have hrest := ih (fun g hg hgf => h g (List.mem_cons_of_mem f hg) hgf)
    unfold runTplFiles
    by_cases hf : tplFilter f = true
    · have hl : format_map.lookup (extOf (tplPath inp cat f)) =
          some (expectedFmt f) :=
        format_map_lookup_of_tplFilter (pyJoin (tplDir inp) cat) f hf
      have himp := import_zabbix_template_supported hl
        (h f (List.mem_cons_self f fs) hf)
      rw [if_pos hf]
      rw [seqF_of_ok _ himp.1]
      refine ⟨hrest.1, ?_⟩
      rw [assetEvents_append, himp.2, hrest.2]
      simp [hf]
    · have hf2 : tplFilter f = false := by
        cases hb : tplFilter f with
        | false => rfl
        | true => exact absurd hb hf
      rw [if_neg (by simp [hf2])]
      refine ⟨hrest.1, ?_⟩
      rw [hrest.2]
      simp [hf2]

theorem tplPhase_spec (inp : RunInput) (cat : PyStr)
    (h : tplNoRaise inp cat) :
    (tplPhase inp cat).2 = Halt.ok ∧
    assetEvents (tplPhase inp cat).1 = tplSegment inp cat := by
  unfold tplPhase tplSegment
  cases hfs : inp.zbxTplFiles cat with
  | none => exact ⟨rfl, rfl⟩
  | some fs =>
    refine runTplFiles_spec inp cat fs ?_
    unfold tplNoRaise at h
    rw [hfs] at h
    exact h

theorem copy_external_script_assets (esp src : PyStr) :
    (copy_external_script esp src).2 = Halt.ok ∧
    assetEvents (copy_external_script esp src).1 = copyAssetEvents esp src := by
  unfold copy_external_script copyAssetEvents
  by_cases hc : (pyEndswith (pyJoin esp (pyBasename src)) (pys ".sh") ||
      pyEndswith (pyJoin esp (pyBasename src)) (pys ".py")) = true
  · rw [if_pos hc, if_pos hc]
    exact ⟨rfl, rfl⟩
  · rw [if_neg hc, if_neg hc]
    exact ⟨rfl, rfl⟩

theorem scrPhase_spec (inp : RunInput) (cat : PyStr) :
    (scrPhase inp cat).2 = Halt.ok ∧
    assetEvents (scrPhase inp cat).1 = scrSegment inp cat := by
  unfold scrPhase scrSegment
  cases hes : inp.zbxScrEntries cat with
  | none => exact ⟨rfl, rfl⟩
  | some es =>
    refine ⟨rfl, ?_⟩
    simp only [assetEvents, List.filter_flatMap]
    congr 1
    funext e
    have := copy_external_script_assets inp.externalscriptPath
      (pyJoin (pyJoin (scrDir inp) cat) e.1)
    simpa [assetEvents] using this.2

theorem dashPhase_spec (inp : RunInput) (cat : PyStr) :
    (dashPhase inp cat).2 = Halt.ok ∧
    assetEvents (dashPhase inp cat).1 = dashSegment inp cat := by
  unfold dashPhase dashSegment
  cases hfs : inp.grafFiles cat with
  | none => exact ⟨rfl, rfl⟩
  | some fs =>
    refine ⟨rfl, ?_⟩
    simp only [assetEvents, List.filter_flatMap]
    generalize List.filter (fun f => pyEndswith f (pys ".json")) fs = l
    induction l with
    | nil => rfl
    | cons x xs ih =>
      simp only [List.flatMap_cons, List.map_cons, ih]
      rfl

theorem catPhase_spec (inp : RunInput) (cat : PyStr)
    (h : tplNoRaise inp cat) :
    (catPhase inp cat).2 = Halt.ok ∧
    assetEvents (catPhase inp cat).1 =
      tplSegment inp cat ++ scrSegment inp cat ++ dashSegment inp cat := by
  have ht := tplPhase_spec inp cat h
  have hs := scrPhase_spec inp cat
  have hd := dashPhase_spec inp cat
  unfold catPhase
  rw [seqF_of_ok _ rfl]
  rw [seqF_of_ok _ ht.1, seqF_of_ok _ rfl, seqF_of_ok _ hs.1,
    seqF_of_ok _ rfl]
  refine ⟨hd.1, ?_⟩
  simp only [assetEvents_append, ht.2, hs.2, hd.2]
  simp only [show assetEvents [Event.logInfo "processing_category" cat,
      Event.logInfo "importing_templates" cat] = [] from rfl,
    show assetEvents [Event.logInfo "copying_scripts" cat] = [] from rfl,
    show assetEvents [Event.logInfo "uploading_dashboards" cat] = [] from rfl,
    List.nil_append, List.append_assoc]

theorem catLoop_spec (inp : RunInput) (cats : List PyStr)
    (h : ∀ cat ∈ cats, tplNoRaise inp cat) :
    (catLoop inp cats).2 = Halt.ok ∧
    assetEvents (catLoop inp cats).1 =
      cats.flatMap (fun cat =>
        tplSegment inp cat ++ scrSegment inp cat ++ dashSegment inp cat) := by
  induction cats with
  | nil => exact ⟨rfl, rfl⟩
  | cons c cs ih =>
    have hc := catPhase_spec inp c (h c (List.mem_cons_self c cs))
    have hrest := ih (fun g hg => h g (List.mem_cons_of_mem c hg))
    unfold catLoop
    rw [seqF_of_ok _ hc.1]
    refine ⟨hrest.1, ?_⟩
    rw [assetEvents_append, hc.2, hrest.2, List.flatMap_cons]

theorem assetEvents_add_zabbix_datasource (dsGet : Option (Nat × Option Json))
    (cs : Nat) : assetEvents (add_zabbix_datasource dsGet cs).1 = [] := by
  unfold add_zabbix_datasource
  repeat' split
  all_goals rfl

theorem assetEvents_install_grafana_plugins
    (fileLines : Option (List PyStr)) (installOk : PyStr → Bool)
    (dsGet : Option (Nat × Option Json)) (cs : Nat) :
    assetEvents
      (install_grafana_plugins fileLines installOk dsGet cs).1 = [] := by
  unfold install_grafana_plugins
  rcases fileLines with _ | lines
  · rfl
  · simp only [assetEvents_append, List.append_eq_nil]
    refine ⟨⟨?_, ?_⟩, ?_⟩
    · unfold assetEvents
      rw [List.filter_flatMap]
      apply List.flatMap_eq_nil_iff.mpr
      intro p hp
      unfold pluginInstallEvents
      by_cases hok : installOk p = true
      · rw [if_pos hok]
        rfl
      · rw [if_neg hok]
        rfl
    · by_cases hany : (pluginLinesOf lines).any installOk = true
      · rw [if_pos hany]
        rfl
      · rw [if_neg hany]
        rfl
    · have hds := assetEvents_add_zabbix_datasource dsGet cs
      cases hd2 : (add_zabbix_datasource dsGet cs).2 with
      | ok => exact hds
      | exited n =>
        rw [assetEvents_append, hds]
        rfl
      | raisedE =>
        rw [assetEvents_append, hds]
        rfl

theorem assetEvents_afterCats (inp : RunInput) :
    assetEvents (afterCats inp).1 = [] := by
  unfold afterCats
  have hv : assetEvents (if inp.venvRequired
      then seqF ([Event.logInfo "venv_banner" []], Halt.ok)
        (setup_virtualenv inp.venvDirExists inp.reqFileExists)
      else ([], Halt.ok)).1 = [] := by
    by_cases hr : inp.venvRequired = true
    · rw [if_pos hr, seqF_of_ok _ rfl, assetEvents_append]
      unfold setup_virtualenv
      by_cases h1 : inp.venvDirExists = true <;>
        by_cases h2 : inp.reqFileExists = true <;>
          simp only [h1, h2, Bool.not_eq_true] at * <;>
            simp [assetEvents, isAssetEvent, isImportEvent, isCopyEvent,
              isUploadEvent]
    · rw [if_neg hr]
      rfl
  have hv2 : (if inp.venvRequired = true
      then seqF ([Event.logInfo "venv_banner" []], Halt.ok)
        (setup_virtualenv inp.venvDirExists inp.reqFileExists)
      else (([], Halt.ok) : FnRes)).2 = Halt.ok := by
    by_cases hr : inp.venvRequired = true
    · rw [if_pos hr, seqF_of_ok _ rfl]
      rfl
    · rw [if_neg hr]
  have hp2 : (install_grafana_plugins inp.pluginLines inp.installOk
      inp.dsGet inp.dsCreateStatus).2 = Halt.ok := by
    unfold install_grafana_plugins
    rcases inp.pluginLines with _ | lines <;> rfl
  rw [seqF_of_ok _ hv2, assetEvents_append, hv, seqF_of_ok _ hp2,
    assetEvents_append, assetEvents_install_grafana_plugins,
    assetEvents_add_zabbix_datasource]
  rfl

theorem zabbix_login_assets (body : Option Json) :
    assetEvents (zabbix_login body).1 = [] := by
  unfold zabbix_login
  repeat' split
  all_goals rfl

theorem zabbix_login_fail {j : Json} (h : j.hasKey "result" = false) :
    exitStatusOf (zabbix_login (some j)).2 = some 1 := by
  unfold zabbix_login
  cases j with
  | obj fs =>
    have hl : fs.lookup "result" = none := by
      simp only [Json.hasKey, Json.getKey] at h
      cases hq : fs.lookup "result" with
      | none => rfl
      | some v =>
        rw [hq] at h
        simp at h
    simp only [pyIn, hl]
    rfl
  | arr xs =>
    simp only [pyIn]
    cases xs.anyEq (Json.str "result") <;> rfl
  | str s =>
    simp only [pyIn]
    cases strContains (pys s) (pys "result") <;> rfl
  | null => rfl
  | bool b => rfl
  | num n => rfl

theorem zabbix_login_fail_not_ok {j : Json} (h : j.hasKey "result" = false) :
    (zabbix_login (some j)).2 ≠ Halt.ok := by
  intro hok
  have := zabbix_login_fail h
  rw [hok] at this
  simp [exitStatusOf] at this

theorem assetEvents_mainPre (inp : RunInput) :
    assetEvents (mainPre inp) = [] := rfl

theorem mainRun_decomp (inp : RunInput)
    (hok : (zabbix_login inp.loginBody).2 = Halt.ok)
    (hloop : (catLoop inp (parseCategories inp.categoryStr)).2 = Halt.ok) :
    mainRun inp =
      (mainPre inp ++ (zabbix_login inp.loginBody).1 ++
        (catLoop inp (parseCategories inp.categoryStr)).1 ++
        (seqF (afterCats inp) ([Event.logInfo "finished" []], Halt.ok)).1,
       (seqF (afterCats inp) ([Event.logInfo "finished" []], Halt.ok)).2) := by
  unfold mainRun
  rw [seqF_of_ok _ rfl, seqF_of_ok _ hok, seqF_of_ok _ hloop]
  simp [List.append_assoc]

theorem mainRun_of_failed_login (inp : RunInput) {j : Json}
    (hb : inp.loginBody = some j) (h : j.hasKey "result" = false) :
    mainRun inp =
      (mainPre inp ++ (zabbix_login (some j)).1, (zabbix_login (some j)).2) := by
  unfold mainRun
  rw [seqF_of_ok _ rfl, hb]
  cases hz : zabbix_login (some j) with
  | mk E H =>
    have hnok : H ≠ Halt.ok := by
      intro he
      exact zabbix_login_fail_not_ok h (by rw [hz, he])
    unfold seqF
    cases H with
    | ok => exact absurd rfl hnok
    | exited n => rfl
    | raisedE => rfl

/-! ### Counting datasource-ensure requests. -/

/-- How many `GET /api/datasources` listing requests a trace contains;
each `add_zabbix_datasource` invocation contributes exactly one. -/
def countDsList (t : List Event) : Nat := (t.filter isDsListEvent).length

theorem countDsList_append (a b : List Event) :
    countDsList (a ++ b) = countDsList a + countDsList b := by
  unfold countDsList
  rw [List.filter_append, List.length_append]

theorem dsFilter_seqF {a b : FnRes}
    (ha : a.1.filter isDsListEvent = [])
    (hb : b.1.filter isDsListEvent = []) :
    (seqF a b).1.filter isDsListEvent = [] := by
  cases a with
  | mk E H =>
    cases H with
    | ok =>
      unfold seqF
      rw [List.filter_append]
      simp only [] at ha
      rw [ha, hb]
      rfl
    | exited n => exact ha
    | raisedE => exact ha

theorem dsFilter_importRespHandle (p : PyStr) (j : Json) :
    (importRespHandle p j).1.filter isDsListEvent = [] := by
  unfold importRespHandle
  repeat' split
  all_goals rfl

theorem dsFilter_import (path : PyStr) (resp : Option Json) :
    (import_zabbix_template path resp).1.filter isDsListEvent = [] := by
  unfold import_zabbix_template
  split
  · rfl
  · cases resp with
    | none => rfl
    | some j =>
      have h := dsFilter_importRespHandle path j
      cases hres : importRespHandle path j with
      | mk E H =>
        rw [hres] at h
        simp only [hres]
        rw [List.filter_append, h]
        rfl

theorem dsFilter_runTplFiles (inp : RunInput) (cat : PyStr)
    (fs : List PyStr) :
    (runTplFiles inp cat fs).1.filter isDsListEvent = [] := by
  induction fs with
  | nil => rfl
  | cons f fs ih =>
    unfold runTplFiles
    by_cases hf : tplFilter f = true
    · rw [if_pos hf]
      exact dsFilter_seqF (dsFilter_import _ _) ih
    · rw [if_neg (by simpa using hf)]
      exact ih

theorem dsFilter_copy (esp src : PyStr) :
    (copy_external_script esp src).1.filter isDsListEvent = [] := by
  unfold copy_external_script
  by_cases hc : (pyEndswith (pyJoin esp (pyBasename src)) (pys ".sh") ||
      pyEndswith (pyJoin esp (pyBasename src)) (pys ".py")) = true
  · rw [if_pos hc]
    rfl
  · rw [if_neg hc]
    rfl

theorem dsFilter_catPhase (inp : RunInput) (cat : PyStr) :
    (catPhase inp cat).1.filter isDsListEvent = [] := by
  unfold catPhase
  refine dsFilter_seqF rfl (dsFilter_seqF ?_ (dsFilter_seqF rfl
    (dsFilter_seqF ?_ (dsFilter_seqF rfl ?_))))
  · unfold tplPhase
    cases inp.zbxTplFiles cat with
    | none => rfl
    | some fs => exact dsFilter_runTplFiles inp cat fs
  · unfold scrPhase
    cases inp.zbxScrEntries cat with
    | none => rfl
    | some es =>
      simp only [List.filter_flatMap]
      apply List.flatMap_eq_nil_iff.mpr
      intro e he
      exact dsFilter_copy _ _
  · unfold dashPhase
    cases inp.grafFiles cat with
    | none => rfl
    | some fs =>
      simp only [List.filter_flatMap]
      apply List.flatMap_eq_nil_iff.mpr
      intro f hf
      rfl

theorem dsFilter_catLoop (inp : RunInput) (cats : List PyStr) :
    (catLoop inp cats).1.filter isDsListEvent = [] := by
  induction cats with
  | nil => rfl
  | cons c cs ih =>
    unfold catLoop
    exact dsFilter_seqF (dsFilter_catPhase inp c) ih

theorem dsFilter_zabbix_login (body : Option Json) :
    (zabbix_login body).1.filter isDsListEvent = [] := by
  unfold zabbix_login
  repeat' split
  all_goals rfl

/-- Every branch of `add_zabbix_datasource` performs exactly one listing
request. -/
theorem countDsList_add_zabbix_datasource
    (dsGet : Option (Nat × Option Json)) (cs : Nat) :
    countDsList (add_zabbix_datasource dsGet cs).1 = 1 := by
  unfold countDsList add_zabbix_datasource
  repeat' split
  all_goals rfl

theorem countDsList_install_grafana_plugins
    (fileLines : Option (List PyStr)) (installOk : PyStr → Bool)
    (dsGet : Option (Nat × Option Json)) (cs : Nat) :
    countDsList (install_grafana_plugins fileLines installOk dsGet cs).1 =
      (if fileLines.isSome then 1 else 0) := by
  unfold install_grafana_plugins
  rcases fileLines with _ | lines
  · rfl
  · simp only [Option.isSome_some, if_true]
    rw [countDsList_append, countDsList_append]
    have h1 : countDsList ((pluginLinesOf lines).flatMap
        (pluginInstallEvents installOk)) = 0 := by
      unfold countDsList
      rw [List.filter_flatMap]
      rw [List.flatMap_eq_nil_iff.mpr]
      · rfl
      · intro p hp
        unfold pluginInstallEvents
        split
        all_goals rfl
    have h2 : countDsList (if (pluginLinesOf lines).any installOk = true
        then [Event.restartGrafana, Event.logInfo "grafana_restarted" []]
        else []) = 0 := by
      split
      all_goals rfl
    have h3 : countDsList (match (add_zabbix_datasource dsGet cs).2 with
        | Halt.ok => (add_zabbix_datasource dsGet cs).1
        | _ => (add_zabbix_datasource dsGet cs).1 ++
            [Event.logError "ds_exception_caught" []]) = 1 := by
      have hc := countDsList_add_zabbix_datasource dsGet cs
      cases (add_zabbix_datasource dsGet cs).2 with
      | ok => exact hc
      | exited n =>
        rw [countDsList_append, hc]
        rfl
      | raisedE =>
        rw [countDsList_append, hc]
        rfl
    rw [h1, h2, h3]

/-- The events of the optional virtualenv step of `main`. -/
def venvPart (inp : RunInput) : List Event :=
  if inp.venvRequired then
    Event.logInfo "venv_banner" [] ::
      (setup_virtualenv inp.venvDirExists inp.reqFileExists).1
  else []

theorem afterCats_decomp (inp : RunInput) :
    afterCats inp =
      (venvPart inp ++
        (install_grafana_plugins inp.pluginLines inp.installOk
          inp.dsGet inp.dsCreateStatus).1 ++
        (add_zabbix_datasource inp.dsGet2 inp.dsCreateStatus2).1,
       (add_zabbix_datasource inp.dsGet2 inp.dsCreateStatus2).2) := by
  unfold afterCats venvPart
  have hp2 : (install_grafana_plugins inp.pluginLines inp.installOk
      inp.dsGet inp.dsCreateStatus).2 = Halt.ok := by
    unfold install_grafana_plugins
    rcases inp.pluginLines with _ | lines <;> rfl
  rw [seqF_of_ok _ hp2]
  by_cases hr : inp.venvRequired = true
  · rw [if_pos hr, if_pos hr, seqF_of_ok _ rfl, seqF_of_ok _ rfl]
    simp [List.append_assoc]
  · rw [if_neg hr, if_neg hr, seqF_of_ok _ rfl]
    simp [List.append_assoc]

theorem dsFilter_venvPart (inp : RunInput) :
    (venvPart inp).filter isDsListEvent = [] := by
  unfold venvPart setup_virtualenv
  repeat' split
  all_goals rfl

theorem countDsList_afterCats (inp : RunInput) :
    countDsList (afterCats inp).1 =
      (if inp.pluginLines.isSome then 2 else 1) := by
  rw [afterCats_decomp]
  simp only []
  rw [countDsList_append, countDsList_append]
  have hv : countDsList (venvPart inp) = 0 := by
    unfold countDsList
    rw [dsFilter_venvPart]
    rfl
  rw [hv, countDsList_install_grafana_plugins,
    countDsList_add_zabbix_datasource]
  cases inp.pluginLines <;> rfl

/-! ### Remaining trace lemmas for the run-level claims. -/

theorem filter_seqF_nil {p : Event → Bool} {a b : FnRes}
    (ha : a.1.filter p = []) (hb : b.1.filter p = []) :
    (seqF a b).1.filter p = [] := by
  cases a with
  | mk E H =>
    cases H with
    | ok =>
      unfold seqF
      rw [List.filter_append]
      simp only [] at ha
      rw [ha, hb]
      rfl
    | exited n => exact ha
    | raisedE => exact ha

theorem warnFilter_import_supported {path fmt : PyStr} (resp : Option Json)
    (hl : format_map.lookup (extOf path) = some fmt) :
    (import_zabbix_template path resp).1.filter isWarningEvent = [] := by
  unfold import_zabbix_template
  rw [hl]
  cases resp with
  | none => rfl
  | some j =>
    have h : (importRespHandle path j).1.filter isWarningEvent = [] := by
      unfold importRespHandle
      repeat' split
      all_goals rfl
    cases hres : importRespHandle path j with
    | mk E H =>
      rw [hres] at h
      simp only [hres]
      rw [List.filter_append, h]
      rfl

theorem warnFilter_tplPhase (inp : RunInput) (cat : PyStr) :
    (tplPhase inp cat).1.filter isWarningEvent = [] := by
  unfold tplPhase
  cases inp.zbxTplFiles cat with
  | none => rfl
  | some fs =>
    induction fs with
    | nil => rfl
    | cons f fs ih =>
      unfold runTplFiles
      by_cases hf : tplFilter f = true
      · rw [if_pos hf]
        refine filter_seqF_nil ?_ ih
        exact warnFilter_import_supported _
          (format_map_lookup_of_tplFilter (pyJoin (tplDir inp) cat) f hf)
      · rw [if_neg (by simpa using hf)]
        exact ih

theorem assetEvents_mainTail (inp : RunInput) :
    assetEvents
      (seqF (afterCats inp) ([Event.logInfo "finished" []], Halt.ok)).1 = [] := by
  have ha := assetEvents_afterCats inp
  cases hres : afterCats inp with
  | mk E H =>
    rw [hres] at ha
    cases H with
    | ok =>
      unfold seqF
      rw [assetEvents_append]
      simp only [] at ha
      rw [ha]
      rfl
    | exited n => exact ha
    | raisedE => exact ha

theorem countDsList_seqF_tail (inp : RunInput) :
    countDsList
      (seqF (afterCats inp) ([Event.logInfo "finished" []], Halt.ok)).1 =
      countDsList (afterCats inp).1 := by
  cases hres : afterCats inp with
  | mk E H =>
    cases H with
    | ok =>
      unfold seqF
      rw [countDsList_append]
      rfl
    | exited n => rfl
    | raisedE => rfl

theorem countDsList_mainRun (inp : RunInput)
    (hok : (zabbix_login inp.loginBody).2 = Halt.ok)
    (hloop : (catLoop inp (parseCategories inp.categoryStr)).2 = Halt.ok) :
    countDsList (mainRun inp).1 =
      (if inp.pluginLines.isSome then 2 else 1) := by
  rw [mainRun_decomp inp hok hloop]
  simp only []
  rw [countDsList_append, countDsList_append, countDsList_append]
  have h1 : countDsList (mainPre inp) = 0 := rfl
  have h2 : countDsList (zabbix_login inp.loginBody).1 = 0 := by
    unfold countDsList
    rw [dsFilter_zabbix_login]
    rfl
  have h3 : countDsList
      (catLoop inp (parseCategories inp.categoryStr)).1 = 0 := by
    unfold countDsList
    rw [dsFilter_catLoop]
    rfl
  rw [h1, h2, h3, countDsList_seqF_tail, countDsList_afterCats]
  omega

theorem mainTail_decomp (inp : RunInput) :
    (seqF (afterCats inp) ([Event.logInfo "finished" []], Halt.ok)).1 =
      venvPart inp ++
      (install_grafana_plugins inp.pluginLines inp.installOk
        inp.dsGet inp.dsCreateStatus).1 ++
      (seqF (add_zabbix_datasource inp.dsGet2 inp.dsCreateStatus2)
        ([Event.logInfo "finished" []], Halt.ok)).1 := by
  rw [afterCats_decomp]
  cases hds : add_zabbix_datasource inp.dsGet2 inp.dsCreateStatus2 with
  | mk E H =>
    cases H with
    | ok => simp [seqF, List.append_assoc]
    | exited n => simp [seqF, List.append_assoc]
    | raisedE => simp [seqF, List.append_assoc]

/-! ### Concrete inputs for the closed checks. -/

/-- A benign concrete run input: login succeeds, one configured category
with no subdirectories anywhere, plugin file absent, datasource listing
healthy and empty. -/
def baseInput : RunInput where
  categoryStr := pys "network"
  tempDir := pys "/tmp/upd"
  repoTpl := pys "https://example.com/tpl.git"
  repoScr := pys "https://example.com/scr.git"
  repoDash := pys "https://example.com/dash.git"
  externalscriptPath := pys "/usr/lib/zabbix/externalscripts"
  venvRequired := false
  venvDirExists := true
  reqFileExists := false
  loginBody := some (Json.obj (JsonObj.cons "result" (Json.str "tok") JsonObj.nil))
  zbxTplFiles := fun _ => none
  zbxScrEntries := fun _ => none
  grafFiles := fun _ => none
  importResp := fun _ => none
  pluginLines := none
  installOk := fun _ => false
  dsGet := some (200, some (Json.arr JsonList.nil))
  dsCreateStatus := 200
  dsGet2 := some (200, some (Json.arr JsonList.nil))
  dsCreateStatus2 := 200

/-! ### Claim C1. -/

/-- C1, counterexample to the claim as stated: the `NameError` on the
unbound global `logger` is raised at the SECOND statement of `main`, not
at its first — the first statement, `temp_dir = tempfile.mkdtemp()`,
references only the bound import `tempfile` and runs (creating the
temporary directory) before the crash. -/
theorem c1_counterexample :
    firstCrash moduleBindings mainStmts ≠ some 0 ∧
    firstCrash moduleBindings mainStmts = some 1 ∧
    mainStmts[0]?.map (fun st => st.action) = some PyAction.mkdtempCall := by
  decide

/-- C1 (amended): `logger` is never bound at module level
(`setup_logging` is defined but never invoked by any statement of
`main`), so `main` raises `NameError` at its second statement — the
first `logger.info` call — after the temporary directory is created but
before any repository fetch, login, import, copy, or upload is
performed. -/
theorem c1_logger_unbound_crash :
    moduleBindings.contains "logger" = false ∧
    mainStmts.all (fun st => !(st.refs.contains "setup_logging")) = true ∧
    firstCrash moduleBindings mainStmts = some 1 ∧
    (mainStmts.take 1).all (fun st =>
      st.action ≠ PyAction.fetchCall ∧ st.action ≠ PyAction.loginCall ∧
      st.action ≠ PyAction.importCall ∧ st.action ≠ PyAction.copyCall ∧
      st.action ≠ PyAction.uploadCall) = true := by
  decide

/-! ### Claim C2. -/

/-- C2: whenever the login response body parses as JSON carrying no
`result` key, the run stops with process exit status 1 (via `sys.exit(1)`
on a dict, or an uncaught `TypeError` on other JSON shapes — CPython
also exits 1 there) and the trace contains no template import, script
copy, or dashboard upload event. -/
theorem c2_login_no_result_exits (inp : RunInput) (j : Json)
    (hb : inp.loginBody = some j) (h : j.hasKey "result" = false) :
    exitStatusOf (mainRun inp).2 = some 1 ∧
    assetEvents (mainRun inp).1 = [] := by
  rw [mainRun_of_failed_login inp hb h]
  refine ⟨zabbix_login_fail h, ?_⟩
  rw [assetEvents_append, assetEvents_mainPre, zabbix_login_assets]
  rfl

/-- C2 witness: a concrete run whose login response is the empty JSON
object. -/
theorem c2_witness :
    (Json.obj JsonObj.nil).hasKey "result" = false ∧
    exitStatusOf
      (mainRun { baseInput with loginBody := some (Json.obj JsonObj.nil) }).2 =
      some 1 ∧
    assetEvents
      (mainRun { baseInput with loginBody := some (Json.obj JsonObj.nil) }).1 =
      [] := by
  refine ⟨by decide, ?_, ?_⟩
  · exact (c2_login_no_result_exits _ (Json.obj JsonObj.nil) rfl (by decide)).1
  · exact (c2_login_no_result_exits _ (Json.obj JsonObj.nil) rfl (by decide)).2

/-! ### Claim C3. -/

/-- Log events of any level. -/
def isLogEvent : Event → Bool
  | Event.logInfo _ _ => true
  | Event.logWarning _ _ => true
  | Event.logError _ _ => true
  | _ => false

/-- C3, counterexample to the claim as stated: on a malformed (non-JSON)
login body, `zabbix_login` emits no log event at all and does not
perform a controlled `sys.exit` — `res.json()` raises and nothing
catches it, unlike the error-field case which logs and exits 1. -/
theorem c3_counterexample :
    (zabbix_login none).1.filter isLogEvent = [] ∧
    (zabbix_login none).2 = Halt.raisedE ∧
    ∀ n, (zabbix_login none).2 ≠ Halt.exited n := by
  refine ⟨rfl, rfl, ?_⟩
  intro n h
  exact absurd h (by simp [zabbix_login])

/-- C3 (amended): a malformed login body makes `zabbix_login` raise the
uncaught parse error immediately after the login request — no failure
log, no `sys.exit` — and the process dies with status 1 from the
uncaught exception, unlike the fail-fast logged `sys.exit(1)` taken when
the parsed body carries an error field and no result. -/
theorem c3_malformed_body_raises :
    zabbix_login none = ([Event.loginRequest], Halt.raisedE) ∧
    exitStatusOf (zabbix_login none).2 = some 1 ∧
    zabbix_login
        (some (Json.obj (JsonObj.cons "error" (Json.str "x") JsonObj.nil))) =
      ([Event.loginRequest, Event.logError "zabbix_login_failed" [],
        Event.sysExit 1], Halt.exited 1) := by
  refine ⟨rfl, rfl, by decide⟩

/-! ### Claim C4. -/

/-- C4: whenever the login succeeds and no response makes the template
loader raise, the asset events of the whole run are exactly, in order:
for each category of the comma-separated configuration string (in that
order), first all its template import requests, then all its script
copies, then all its dashboard uploads. -/
theorem c4_category_ordering (inp : RunInput)
    (hok : (zabbix_login inp.loginBody).2 = Halt.ok)
    (hnr : ∀ cat ∈ parseCategories inp.categoryStr, tplNoRaise inp cat) :
    assetEvents (mainRun inp).1 =
      (parseCategories inp.categoryStr).flatMap (fun cat =>
        tplSegment inp cat ++ scrSegment inp cat ++ dashSegment inp cat) := by
  have hloop := catLoop_spec inp (parseCategories inp.categoryStr) hnr
  rw [mainRun_decomp inp hok hloop.1]
  simp only []
  rw [assetEvents_append, assetEvents_append, assetEvents_append,
    assetEvents_mainPre, zabbix_login_assets, hloop.2, assetEvents_mainTail]
  simp

/-- Concrete input for the C4 witness: two configured categories
`network,db`; `network` has one supported and one unsupported template
file plus a dashboard directory, `db` has a script directory. -/
def inp4 : RunInput :=
  { baseInput with
    categoryStr := pys "network,db"
    zbxTplFiles := fun c =>
      if c = pys "network" then some [pys "tpl1.xml", pys "notes.txt"]
      else none
    zbxScrEntries := fun c =>
      if c = pys "db" then some [(pys "check.sh", true), (pys "sub", false)]
      else none
    grafFiles := fun c =>
      if c = pys "network" then some [pys "dash.json", pys "readme.md"]
      else none
    importResp := fun _ => some (Json.obj JsonObj.nil) }

/-- C4 witness: the ordering theorem applied to `inp4`. -/
theorem c4_witness :
    (zabbix_login inp4.loginBody).2 = Halt.ok ∧
    (∀ cat ∈ parseCategories inp4.categoryStr, tplNoRaise inp4 cat) ∧
    assetEvents (mainRun inp4).1 =
      (parseCategories inp4.categoryStr).flatMap (fun cat =>
        tplSegment inp4 cat ++ scrSegment inp4 cat ++ dashSegment inp4 cat) :=
  ⟨by decide, by decide, c4_category_ordering inp4 (by decide) (by decide)⟩

/-! ### Claim C5. -/

/-- Concrete input for C5: virtualenv enabled and a plugin file with one
plugin whose installation succeeds. -/
def inp5 : RunInput :=
  { baseInput with
    venvRequired := true
    venvDirExists := false
    pluginLines := some [pys "pluginA"]
    installOk := fun _ => true }

/-- C5, counterexample to the claim as stated: in a run with a plugin
file present and virtualenv enabled, the datasource-registration
operation executes twice (not exactly once), and the virtualenv step
runs BEFORE the plugin/datasource provisioning step, not after it. -/
theorem c5_counterexample :
    countDsList (mainRun inp5).1 = 2 ∧
    (mainRun inp5).1.any isPluginInstallEvent = true ∧
    (mainRun inp5).1.findIdx (fun e => e == Event.pipUpgrade) <
      (mainRun inp5).1.findIdx isPluginInstallEvent := by
  decide

/-- C5 (amended): after the last category the optional virtualenv step
runs FIRST (when enabled), then the plugin installer — which performs
the datasource-ensure step itself whenever the plugin file exists — and
then one more unconditional datasource-ensure call directly from
`main`; the datasource-registration operation therefore runs twice per
run when the plugin file exists, once otherwise. -/
theorem c5_provisioning_order (inp : RunInput)
    (hok : (zabbix_login inp.loginBody).2 = Halt.ok)
    (hloop : (catLoop inp (parseCategories inp.categoryStr)).2 = Halt.ok) :
    (mainRun inp).1 =
      mainPre inp ++ (zabbix_login inp.loginBody).1 ++
      ((catLoop inp (parseCategories inp.categoryStr)).1 ++
        (venvPart inp ++
          ((install_grafana_plugins inp.pluginLines inp.installOk
            inp.dsGet inp.dsCreateStatus).1 ++
          (seqF (add_zabbix_datasource inp.dsGet2 inp.dsCreateStatus2)
            ([Event.logInfo "finished" []], Halt.ok)).1))) ∧
    countDsList (mainRun inp).1 =
      (if inp.pluginLines.isSome then 2 else 1) := by
  constructor
  · rw [mainRun_decomp inp hok hloop]
    simp only []
    rw [mainTail_decomp]
    simp [List.append_assoc]
  · exact countDsList_mainRun inp hok hloop

/-- C5 witness: the amended theorem applied to `inp5`. -/
theorem c5_witness :
    (zabbix_login inp5.loginBody).2 = Halt.ok ∧
    (catLoop inp5 (parseCategories inp5.categoryStr)).2 = Halt.ok ∧
    countDsList (mainRun inp5).1 =
      (if inp5.pluginLines.isSome then 2 else 1) :=
  ⟨by decide, by decide,
    (c5_provisioning_order inp5 (by decide) (by decide)).2⟩

/-! ### Claim C6. -/

theorem tplPath_inj {inp : RunInput} {cat f g : PyStr}
    (h : tplPath inp cat f = tplPath inp cat g) : f = g := by
  unfold tplPath pyJoin at h
  have h2 := List.append_cancel_left h
  exact List.cons.inj h2 |>.2

/-- Concrete input for the C6 counterexample: a template directory whose
only file has an unsupported extension. -/
def inp6 : RunInput :=
  { baseInput with
    zbxTplFiles := fun c =>
      if c = pys "network" then some [pys "readme.txt"] else none }

/-- C6, counterexample to the claim as stated: for the unsupported file
`readme.txt` in an existing template category directory, no import API
call is made (as claimed) but ALSO no warning is logged — `main`'s
suffix filter drops the file before `import_zabbix_template` (whose
warning branch is unreachable from `main`) ever sees it. -/
theorem c6_counterexample :
    inp6.zbxTplFiles (pys "network") = some [pys "readme.txt"] ∧
    (tplPhase inp6 (pys "network")).1.filter isWarningEvent = [] ∧
    (tplPhase inp6 (pys "network")).1.filter isImportEvent = [] := by
  decide

/-- C6 (amended): for every file of an existing template category
directory whose (lower-cased) name ends in `.xml`/`.json`/`.yaml`/`.yml`,
exactly one `configuration.import` request is submitted, whose format is
the one the extension maps to (xml→xml, json→json, yaml→yaml, yml→yaml)
and whose rules set `createMissing` and `updateExisting` to true for all
seven object types; a file with an unsupported extension is skipped
SILENTLY — no import API call for it, and no warning either, because
`main`'s extension filter removes it before the importer runs. -/
theorem c6_template_file_handling (inp : RunInput) (cat : PyStr)
    (fs : List PyStr) (hfs : inp.zbxTplFiles cat = some fs)
    (hnr : tplNoRaise inp cat) :
    assetEvents (tplPhase inp cat).1 =
      (fs.filter tplFilter).map (fun f =>
        Event.importRequest (tplPath inp cat f) (expectedFmt f)
          importRules) ∧
    (∀ f ∈ fs, tplFilter f = true →
      format_map.lookup (extOf (tplPath inp cat f)) =
        some (expectedFmt f)) ∧
    (∀ r ∈ importRules, r.2.1 = true ∧ r.2.2 = true) ∧
    importRules.map (fun r => r.1) =
      ["templates", "items", "triggers", "discoveryRules", "graphs",
       "valueMaps", "httptests"] ∧
    (tplPhase inp cat).1.filter isWarningEvent = [] ∧
    (∀ f ∈ fs, tplFilter f = false → ∀ fmt rules,
      Event.importRequest (tplPath inp cat f) fmt rules ∉
        (tplPhase inp cat).1) := by
  have hseg : assetEvents (tplPhase inp cat).1 =
      (fs.filter tplFilter).map (fun f =>
        Event.importRequest (tplPath inp cat f) (expectedFmt f)
          importRules) := by
    have h := (tplPhase_spec inp cat hnr).2
    unfold tplSegment at h
    rw [hfs] at h
    exact h
  refine ⟨hseg, ?_, by decide, by decide, warnFilter_tplPhase inp cat, ?_⟩
  · intro f _ hft
    exact format_map_lookup_of_tplFilter (pyJoin (tplDir inp) cat) f hft
  · intro f _ hff fmt rules hmem
    have hassets : Event.importRequest (tplPath inp cat f) fmt rules ∈
        assetEvents (tplPhase inp cat).1 :=
      List.mem_filter.mpr ⟨hmem, rfl⟩
    rw [hseg] at hassets
    obtain ⟨g, hg, hge⟩ := List.mem_map.mp hassets
    have hpath : tplPath inp cat g = tplPath inp cat f :=
      (Event.importRequest.inj hge).1
    have hgf : g = f := tplPath_inj hpath
    have hgt : tplFilter g = true := (List.mem_filter.mp hg).2
    rw [hgf, hff] at hgt
    exact Bool.false_ne_true hgt

/-- C6 witness: the amended theorem applied to `inp4`'s `network`
category (files `tpl1.xml` and `notes.txt`). -/
theorem c6_witness :
    inp4.zbxTplFiles (pys "network") =
      some [pys "tpl1.xml", pys "notes.txt"] ∧
    tplNoRaise inp4 (pys "network") ∧
    assetEvents (tplPhase inp4 (pys "network")).1 =
      ([pys "tpl1.xml", pys "notes.txt"].filter tplFilter).map (fun f =>
        Event.importRequest (tplPath inp4 (pys "network") f)
          (expectedFmt f) importRules) ∧
    (tplPhase inp4 (pys "network")).1.filter isWarningEvent = [] :=
  ⟨by decide, by decide,
   (c6_template_file_handling inp4 (pys "network")
     [pys "tpl1.xml", pys "notes.txt"] (by decide) (by decide)).1,
   (c6_template_file_handling inp4 (pys "network")
     [pys "tpl1.xml", pys "notes.txt"] (by decide) (by decide)).2.2.2.2.1⟩

/-! ### Claim C7. -/

theorem pyIn_true_of_getKey {j : Json} {k : String} {v : Json}
    (h : j.getKey k = some v) : pyIn k j = Except.ok true := by
  cases j with
  | obj fs =>
    simp only [Json.getKey] at h
    simp [pyIn, h]
  | null => simp [Json.getKey] at h
  | bool b => simp [Json.getKey] at h
  | num n => simp [Json.getKey] at h
  | str s => simp [Json.getKey] at h
  | arr xs => simp [Json.getKey] at h

/-- Concrete input for the C7 counterexample: one template file for which the
API response carries an `error` field that is a bare string (no
`data` entry). -/
def inp7 : RunInput :=
  { baseInput with
    zbxTplFiles := fun c =>
      if c = pys "network" then some [pys "tpl1.xml"] else none
    importResp := fun _ =>
      some (Json.obj (JsonObj.cons "error" (Json.str "boom") JsonObj.nil)) }

/-- C7, counterexample to the claim as stated: an import API response
whose `error` field carries no `data` entry makes
`response_json['error']['data']` raise (only `ValueError` is caught), so
`import_zabbix_template` does NOT return normally and the whole run
aborts — one failed import can abort the run. -/
theorem c7_counterexample :
    (inp7.importResp
        (tplPath inp7 (pys "network") (pys "tpl1.xml"))).map
      (fun j => j.hasKey "error") = some true ∧
    (import_zabbix_template (tplPath inp7 (pys "network") (pys "tpl1.xml"))
      (inp7.importResp
        (tplPath inp7 (pys "network") (pys "tpl1.xml")))).2 =
      Halt.raisedE ∧
    (mainRun inp7).2 = Halt.raisedE := by
  decide

/-- C7 (amended): for every template file whose import API response
carries an `error` field whose value contains a `data` entry, the file
loader logs the failure after the single import request and returns
normally, and the per-category loop continues with the remaining files;
if the `error` value has no `data` entry, the unguarded
`['error']['data']` lookup raises instead and aborts the run. -/
theorem c7_error_isolation (path fmt : PyStr) (j e d : Json)
    (hl : format_map.lookup (extOf path) = some fmt)
    (he : j.getKey "error" = some e) (hd : e.getKey "data" = some d) :
    import_zabbix_template path (some j) =
      ([Event.importRequest path fmt importRules,
        Event.logError "import_failed" path], Halt.ok) ∧
    (∀ inp cat f fs, tplPath inp cat f = path → tplFilter f = true →
      inp.importResp path = some j →
      runTplFiles inp cat (f :: fs) =
        ((import_zabbix_template path (some j)).1 ++
          (runTplFiles inp cat fs).1,
         (runTplFiles inp cat fs).2)) := by
  have hhandle : importRespHandle path j =
      ([Event.logError "import_failed" path], Halt.ok) := by
    unfold importRespHandle
    rw [pyIn_true_of_getKey he]
    simp [he, hd]
  have himp : import_zabbix_template path (some j) =
      ([Event.importRequest path fmt importRules,
        Event.logError "import_failed" path], Halt.ok) := by
    unfold import_zabbix_template
    rw [hl]
    simp [hhandle]
  refine ⟨himp, ?_⟩
  intro inp cat f fs hpath hft hresp
  conv_lhs => rw [runTplFiles]
  rw [if_pos hft, hpath, hresp]
  rw [seqF_of_ok _ (by rw [himp])]

/-- C7 witness: the amended theorem applied to a concrete path and a
well-formed error response. -/
theorem c7_witness :
    format_map.lookup (extOf (pys "a.xml")) = some (pys "xml") ∧
    (Json.obj (JsonObj.cons "error"
      (Json.obj (JsonObj.cons "data" (Json.str "msg") JsonObj.nil))
      JsonObj.nil)).getKey "error" =
      some (Json.obj (JsonObj.cons "data" (Json.str "msg") JsonObj.nil)) ∧
    import_zabbix_template (pys "a.xml")
      (some (Json.obj (JsonObj.cons "error"
        (Json.obj (JsonObj.cons "data" (Json.str "msg") JsonObj.nil))
        JsonObj.nil))) =
      ([Event.importRequest (pys "a.xml") (pys "xml") importRules,
        Event.logError "import_failed" (pys "a.xml")], Halt.ok) :=
  ⟨by decide, by decide,
   (c7_error_isolation (pys "a.xml") (pys "xml")
     (Json.obj (JsonObj.cons "error"
       (Json.obj (JsonObj.cons "data" (Json.str "msg") JsonObj.nil))
       JsonObj.nil))
     (Json.obj (JsonObj.cons "data" (Json.str "msg") JsonObj.nil))
     (Json.str "msg")
     (by decide) (by decide) (by decide)).1⟩

/-! ### Claim C8. -/

/-- C8: a category whose subdirectory is absent from a fetched
repository triggers nothing in the corresponding importer — no API
call, no copy, no upload, no exception — and when all three
subdirectories are absent, the category contributes only its banner log
lines and the loop proceeds unchanged to the remaining categories. -/
theorem c8_missing_category (inp : RunInput) (cat : PyStr)
    (cs : List PyStr) :
    (inp.zbxTplFiles cat = none → tplPhase inp cat = ([], Halt.ok)) ∧
    (inp.zbxScrEntries cat = none → scrPhase inp cat = ([], Halt.ok)) ∧
    (inp.grafFiles cat = none → dashPhase inp cat = ([], Halt.ok)) ∧
    (inp.zbxTplFiles cat = none → inp.zbxScrEntries cat = none →
      inp.grafFiles cat = none →
      catLoop inp (cat :: cs) =
        ([Event.logInfo "processing_category" cat,
          Event.logInfo "importing_templates" cat,
          Event.logInfo "copying_scripts" cat,
          Event.logInfo "uploading_dashboards" cat] ++ (catLoop inp cs).1,
         (catLoop inp cs).2)) := by
  refine ⟨?_, ?_, ?_, ?_⟩
  · intro h
    unfold tplPhase
    rw [h]
  · intro h
    unfold scrPhase
    rw [h]
  · intro h
    unfold dashPhase
    rw [h]
  · intro h1 h2 h3
    have ht : tplPhase inp cat = ([], Halt.ok) := by
      unfold tplPhase
      rw [h1]
    have hs : scrPhase inp cat = ([], Halt.ok) := by
      unfold scrPhase
      rw [h2]
    have hd : dashPhase inp cat = ([], Halt.ok) := by
      unfold dashPhase
      rw [h3]
    have hcp : catPhase inp cat =
        ([Event.logInfo "processing_category" cat,
          Event.logInfo "importing_templates" cat,
          Event.logInfo "copying_scripts" cat,
          Event.logInfo "uploading_dashboards" cat], Halt.ok) := by
      unfold catPhase
      rw [ht, hs, hd]
      simp [seqF]
    conv_lhs => rw [catLoop]
    rw [hcp, seqF_of_ok _ rfl]

/-- C8 witness: in `baseInput` every category subdirectory is absent;
the `db` category is a silent no-op and the loop over `db :: [net]`
reduces to the loop over `[net]` plus banner logs. -/
theorem c8_witness :
    baseInput.zbxTplFiles (pys "db") = none ∧
    tplPhase baseInput (pys "db") = ([], Halt.ok) ∧
    scrPhase baseInput (pys "db") = ([], Halt.ok) ∧
    dashPhase baseInput (pys "db") = ([], Halt.ok) ∧
    catLoop baseInput (pys "db" :: [pys "net"]) =
      ([Event.logInfo "processing_category" (pys "db"),
        Event.logInfo "importing_templates" (pys "db"),
        Event.logInfo "copying_scripts" (pys "db"),
        Event.logInfo "uploading_dashboards" (pys "db")] ++
          (catLoop baseInput [pys "net"]).1,
       (catLoop baseInput [pys "net"]).2) :=
  ⟨rfl,
   (c8_missing_category baseInput (pys "db") [pys "net"]).1 rfl,
   (c8_missing_category baseInput (pys "db") [pys "net"]).2.1 rfl,
   (c8_missing_category baseInput (pys "db") [pys "net"]).2.2.1 rfl,
   (c8_missing_category baseInput (pys "db") [pys "net"]).2.2.2 rfl rfl rfl⟩

/-! ### Claim C9. -/

theorem install_grafana_plugins_decomp (lines : List PyStr)
    (installOk : PyStr → Bool) (dsGet : Option (Nat × Option Json))
    (cs : Nat) :
    install_grafana_plugins (some lines) installOk dsGet cs =
      ((pluginLinesOf lines).flatMap (pluginInstallEvents installOk) ++
        (if (pluginLinesOf lines).any installOk then
          [Event.restartGrafana, Event.logInfo "grafana_restarted" []]
         else []) ++
        (match (add_zabbix_datasource dsGet cs).2 with
         | Halt.ok => (add_zabbix_datasource dsGet cs).1
         | _ => (add_zabbix_datasource dsGet cs).1 ++
             [Event.logError "ds_exception_caught" []]),
       Halt.ok) := rfl

theorem not_mem_of_filter_nil {p : Event → Bool} {t : List Event}
    (h : t.filter p = []) {e : Event} (hp : p e = true) : e ∉ t := by
  intro hm
  have hmem := List.mem_filter.mpr ⟨hm, hp⟩
  rw [h] at hmem
  exact absurd hmem (List.not_mem_nil e)

def isRestartEvent : Event → Bool
  | Event.restartGrafana => true
  | _ => false

theorem restartFilter_installEvents (installOk : PyStr → Bool)
    (plugins : List PyStr) :
    (plugins.flatMap (pluginInstallEvents installOk)).filter
      isRestartEvent = [] := by
  induction plugins with
  | nil => rfl
  | cons p ps ih =>
    rw [List.flatMap_cons, List.filter_append, ih]
    unfold pluginInstallEvents
    split
    · rfl
    · rfl

theorem restartFilter_add_zabbix_datasource
    (dsGet : Option (Nat × Option Json)) (cs : Nat) :
    (add_zabbix_datasource dsGet cs).1.filter isRestartEvent = [] := by
  unfold add_zabbix_datasource
  repeat' split
  all_goals rfl

theorem pluginFilter_pluginInstallEvents (installOk : PyStr → Bool)
    (p : PyStr) :
    (pluginInstallEvents installOk p).filter isPluginInstallEvent =
      [Event.pluginInstall p] := by
  unfold pluginInstallEvents
  split
  · rfl
  · rfl

theorem pluginFilter_add_zabbix_datasource
    (dsGet : Option (Nat × Option Json)) (cs : Nat) :
    (add_zabbix_datasource dsGet cs).1.filter isPluginInstallEvent = [] := by
  unfold add_zabbix_datasource
  repeat' split
  all_goals rfl

/-- C9: when the plugin file is absent, `install_grafana_plugins` only
logs a warning (no install, no restart, not even the datasource step);
when it is present, exactly one `grafana-cli plugins install` invocation
occurs per non-blank, non-`#`-prefixed line (stripped, in file order),
and the `systemctl restart grafana-server` command is issued if and only
if at least one install invocation exited 0. -/
theorem c9_plugin_install_restart (installOk : PyStr → Bool)
    (dsGet : Option (Nat × Option Json)) (cs : Nat) :
    install_grafana_plugins none installOk dsGet cs =
      ([Event.logWarning "plugin_file_missing" []], Halt.ok) ∧
    ∀ lines : List PyStr,
      (install_grafana_plugins (some lines) installOk dsGet cs).1.filter
          isPluginInstallEvent =
        (pluginLinesOf lines).map Event.pluginInstall ∧
      (Event.restartGrafana ∈
          (install_grafana_plugins (some lines) installOk dsGet cs).1 ↔
        (pluginLinesOf lines).any installOk = true) := by
  refine ⟨rfl, ?_⟩
  intro lines
  rw [install_grafana_plugins_decomp]
  have hds : (match (add_zabbix_datasource dsGet cs).2 with
      | Halt.ok => (add_zabbix_datasource dsGet cs).1
      | _ => (add_zabbix_datasource dsGet cs).1 ++
          [Event.logError "ds_exception_caught" []]).filter
        isPluginInstallEvent = [] := by
    cases (add_zabbix_datasource dsGet cs).2 with
    | ok => exact pluginFilter_add_zabbix_datasource dsGet cs
    | exited n =>
      rw [List.filter_append, pluginFilter_add_zabbix_datasource]
      rfl
    | raisedE =>
      rw [List.filter_append, pluginFilter_add_zabbix_datasource]
      rfl
  have hdsr : (match (add_zabbix_datasource dsGet cs).2 with
      | Halt.ok => (add_zabbix_datasource dsGet cs).1
      | _ => (add_zabbix_datasource dsGet cs).1 ++
          [Event.logError "ds_exception_caught" []]).filter
        isRestartEvent = [] := by
    cases (add_zabbix_datasource dsGet cs).2 with
    | ok => exact restartFilter_add_zabbix_datasource dsGet cs
    | exited n =>
      rw [List.filter_append, restartFilter_add_zabbix_datasource]
      rfl
    | raisedE =>
      rw [List.filter_append, restartFilter_add_zabbix_datasource]
      rfl
  constructor
  · simp only [List.filter_append, hds, List.append_nil]
    have h1 : ((pluginLinesOf lines).flatMap
        (pluginInstallEvents installOk)).filter isPluginInstallEvent =
        (pluginLinesOf lines).map Event.pluginInstall := by
      induction pluginLinesOf lines with
      | nil => rfl
      | cons p ps ih =>
        rw [List.flatMap_cons, List.filter_append, ih,
          pluginFilter_pluginInstallEvents, List.map_cons]
        rfl
    rw [h1]
    have h2 : (if (pluginLinesOf lines).any installOk then
        [Event.restartGrafana, Event.logInfo "grafana_restarted" []]
        else ([] : List Event)).filter isPluginInstallEvent = [] := by
      split
      · rfl
      · rfl
    rw [h2, List.append_nil]
  · constructor
    · intro hm
      simp only [List.mem_append] at hm
      rcases hm with (hm | hm) | hm
      · exact absurd hm (not_mem_of_filter_nil
          (restartFilter_installEvents installOk (pluginLinesOf lines)) rfl)
      · by_cases hany : (pluginLinesOf lines).any installOk = true
        · exact hany
        · rw [if_neg (by simpa using hany)] at hm
          exact absurd hm (List.not_mem_nil _)
      · exact absurd hm (not_mem_of_filter_nil hdsr rfl)
    · intro hany
      simp only [List.mem_append]
      left
      right
      rw [if_pos hany]
      exact List.mem_cons_self _ _

/-! ### Claim C10. -/

/-- How many datasource-create (`POST /api/datasources`) requests a
trace contains. -/
def countDsCreate (t : List Event) : Nat :=
  (t.filter isDsCreateEvent).length

/-- Concrete input for the C10 counterexample: plugin file absent, and
the datasource listing request of `main`'s direct (unguarded)
`add_zabbix_datasource()` call raises. -/
def inp10 : RunInput := { baseInput with dsGet2 := none }

/-- C10, counterexample to the claim as stated: when the direct
`add_zabbix_datasource()` call of `main` (line 295) hits a raising
listing request, the exception is uncaught — unlike the invocation
inside `install_grafana_plugins`, this call site has no `try/except` —
and the whole run aborts: a failure in this stage CAN be fatal. -/
theorem c10_counterexample :
    inp10.dsGet2 = none ∧
    (catLoop inp10 (parseCategories inp10.categoryStr)).2 = Halt.ok ∧
    (mainRun inp10).2 = Halt.raisedE := by
  decide

/-- C10 (amended): `add_zabbix_datasource` makes at most one create
request per call, and only when the listing succeeded with status 200
and contained no entry of the Zabbix datasource type; a non-200 listing
yields a warning and an early return with no create; and the stage is
shielded from the run only at the `install_grafana_plugins` call site
(whose `try/except` always returns normally) — the direct call in
`main` is unguarded, so an exception there aborts the run. -/
theorem c10_datasource_best_effort :
    (∀ g cs, countDsCreate (add_zabbix_datasource g cs).1 ≤ 1) ∧
    (∀ g cs, Event.dsCreateRequest ∈ (add_zabbix_datasource g cs).1 →
      ∃ st j, g = some (st, some j) ∧ st = 200 ∧
        scanDs j = DsScan.notFound) ∧
    (∀ st (body : Option Json) cs, st ≠ 200 →
      add_zabbix_datasource (some (st, body)) cs =
        ([Event.logInfo "ensure_zabbix_ds" [], Event.dsListRequest,
          Event.logWarning "ds_list_failed" []], Halt.ok)) ∧
    (∀ fileLines installOk g cs,
      (install_grafana_plugins fileLines installOk g cs).2 = Halt.ok) := by
  refine ⟨?_, ?_, ?_, ?_⟩
  · intro g cs
    unfold countDsCreate add_zabbix_datasource
    repeat' split
    all_goals decide
  · intro g cs hm
    rcases g with _ | ⟨st, body⟩
    · simp only [add_zabbix_datasource] at hm
      simp at hm
    · simp only [add_zabbix_datasource] at hm
      by_cases hst : st ≠ 200
      · rw [if_pos hst] at hm
        simp at hm
      · rw [if_neg hst] at hm
        push_neg at hst
        rcases body with _ | j
        · simp at hm
        · rcases hscan : scanDs j with _ | _ | _
          · simp [hscan] at hm
          · exact ⟨st, j, rfl, hst, hscan⟩
          · simp [hscan] at hm
  · intro st body cs hst
    simp only [add_zabbix_datasource]
    rw [if_pos hst]
  · intro fileLines installOk g cs
    unfold install_grafana_plugins
    rcases fileLines with _ | lines <;> rfl

/-- C10 witness: the amended theorem applied to concrete calls — an
empty 200 listing (at most one create; create implies an absent entry),
a 404 listing (warning and return), and a plugin-installer invocation
whose datasource request raises (still returns normally). -/
theorem c10_witness :
    countDsCreate
      (add_zabbix_datasource (some (200, some (Json.arr JsonList.nil)))
        200).1 ≤ 1 ∧
    (∃ st j, (some (200, some (Json.arr JsonList.nil)) :
        Option (Nat × Option Json)) = some (st, some j) ∧ st = 200 ∧
      scanDs j = DsScan.notFound) ∧
    add_zabbix_datasource (some (404, some (Json.arr JsonList.nil))) 200 =
      ([Event.logInfo "ensure_zabbix_ds" [], Event.dsListRequest,
        Event.logWarning "ds_list_failed" []], Halt.ok) ∧
    (install_grafana_plugins (some [pys "p"]) (fun _ => true)
      none 200).2 = Halt.ok :=
  ⟨c10_datasource_best_effort.1 _ _,
   c10_datasource_best_effort.2.1 _ 200 (by decide),
   c10_datasource_best_effort.2.2.1 404 _ 200 (by decide),
   c10_datasource_best_effort.2.2.2 _ _ _ _⟩
